import Mathlib

/-!
Verification of the question-normalization pipeline of the REVICEIT quiz
application (src/services/geminiService.ts).

The TypeScript source is shallowly embedded here:

* Strings are embedded as `List Char` (wrapped in `String` at the API level).
* The JavaScript regex-replace pipelines `repairMalformedLatex` and
  `latexToSimple` are embedded rule by rule.  Each regex rule of the source is
  a dedicated scanner that mirrors the semantics of JavaScript's
  `String.prototype.replace` with a global regex: it scans left to right,
  rewrites the leftmost match, and resumes scanning immediately after the
  consumed match (consumed characters are never reconsidered).  The scanners
  use explicit fuel so that they are structurally recursive and reduce inside
  the kernel; every caller supplies fuel that is at least the length of the
  scanned list, so the fuel never runs out.
* `JSON.parse` is embedded as a recursive-descent parser `parseJSON`
  (JSON numbers are modelled as integers; the model response texts handled by
  this repository carry only integer numerics).
* Loosely-typed JavaScript values ("raw candidates") are embedded as `JSVal`,
  with property access `jsGet` (absent key gives `JSVal.undefined`), JavaScript
  truthiness `truthy`, the short-circuiting `||` operator `jsOr`, the
  `String(x)` conversion `jsToString`, and `parseInt` as `parseIntJS`
  (modelled for decimal inputs, without the hexadecimal `0x` special case).
* `Date.now()` is made explicit as a `now : Nat` parameter.
-/

/-- JavaScript whitespace class `\s`, restricted to the ASCII whitespace
characters (space, tab, line feed, carriage return, vertical tab, form feed).
-/
def jsWs (c : Char) : Bool :=
  c = ' ' ∨ c = '\t' ∨ c = '\n' ∨ c = '\r' ∨ c = '\x0b' ∨ c = '\x0c'

/-- Global replacement of the literal pattern `pat` by `repl`, as performed by
JavaScript `text.replace(/pat/g, repl)` for a regex without classes or
captures: leftmost match first, non-overlapping, scanning resumes after the
replaced text.  Fuel-indexed for structural recursion. -/
def replaceAllF (pat repl : List Char) : Nat → List Char → List Char
  | _, [] => []
  | 0, s => s
  | f+1, c :: cs =>
    if pat ≠ [] ∧ pat.isPrefixOf (c :: cs) then
      repl ++ replaceAllF pat repl f ((c :: cs).drop pat.length)
    else c :: replaceAllF pat repl f cs

/-- Global literal replacement (wrapper supplying enough fuel). -/
def replaceAll (pat repl s : List Char) : List Char :=
  replaceAllF pat repl s.length s

/-- One repair rule of `repairMalformedLatex` of the shape
`(\s|^)tok` replaced by `$1rep` (used with `tok` = `ext{` / `frac{` / `sqrt{`
and `rep` = `\text{` / `\frac{` / `\sqrt{`): an occurrence of the broken token
preceded by a whitespace character is rewritten; the leading separator is kept.
This is the scanner for interior positions (the position-0 `^` alternative is
handled by `fixTok`). -/
def fixTokF (tok rep : List Char) : Nat → List Char → List Char
  | _, [] => []
  | 0, s => s
  | f+1, c :: cs =>
    if jsWs c ∧ tok.isPrefixOf cs then
      c :: (rep ++ fixTokF tok rep f (cs.drop tok.length))
    else c :: fixTokF tok rep f cs

/-- Full `(\s|^)tok` → `$1rep` rule: the `^` alternative can only fire at
position 0 (the regexes of the source are not multiline). -/
def fixTok (tok rep s : List Char) : List Char :=
  if tok.isPrefixOf s then rep ++ fixTokF tok rep s.length (s.drop tok.length)
  else fixTokF tok rep s.length s

/-- Does the list start with a whitespace character or end here?  This is the
`(\s|$)` trailing context of the word rules of `repairMalformedLatex`. -/
def wsOrEnd : List Char → Bool
  | [] => true
  | c :: _ => jsWs c

/-- One word rule of `repairMalformedLatex` of the shape
`(\s|^)w(\s|$)` replaced by `$1\w$2` (used with `w` = `times` / `mu` / `pi` /
`theta`).  Crucially, a match consumes its trailing whitespace separator, so a
following adjacent word occurrence loses its leading separator and is not
matched in the same pass — exactly as in JavaScript.  Interior scanner. -/
def fixWordF (w : List Char) : Nat → List Char → List Char
  | _, [] => []
  | 0, s => s
  | f+1, c :: cs =>
    if jsWs c ∧ w.isPrefixOf cs ∧ wsOrEnd (cs.drop w.length) then
      match cs.drop w.length with
      | [] => c :: '\\' :: w
      | d :: ds => c :: '\\' :: (w ++ d :: fixWordF w f ds)
    else c :: fixWordF w f cs

/-- Full `(\s|^)w(\s|$)` → `$1\w$2` rule including the position-0 case. -/
def fixWord (w s : List Char) : List Char :=
  if w.isPrefixOf s ∧ wsOrEnd (s.drop w.length) then
    match s.drop w.length with
    | [] => '\\' :: w
    | d :: ds => '\\' :: (w ++ d :: fixWordF w s.length ds)
  else fixWordF w s.length s

/-- The final rule of `repairMalformedLatex`:
`t.replace(/\$([^\$]+)\$/g, (match, content) => `$${content}$`)`.
The replacement reconstructs exactly the matched text, so the rule is the
identity; it is embedded faithfully nonetheless. -/
def dollarRewrapF : Nat → List Char → List Char
  | _, [] => []
  | 0, s => s
  | f+1, c :: cs =>
    if c = '$' ∧ cs.takeWhile (· ≠ '$') ≠ [] ∧ cs.dropWhile (· ≠ '$') ≠ [] then
      c :: (cs.takeWhile (· ≠ '$') ++ '$' :: dollarRewrapF f ((cs.dropWhile (· ≠ '$')).drop 1))
    else c :: dollarRewrapF f cs

/-- `\$([^\$]+)\$` rewrap rule (identity in effect). -/
def dollarRewrap (s : List Char) : List Char :=
  dollarRewrapF s.length s

/-- `repairMalformedLatex` of src/services/geminiService.ts on character
lists: chained global replaces repairing escape-less command tokens, then the
(identity) `$...$` rewrap. -/
def repairChars (s : List Char) : List Char :=
  dollarRewrap
    (fixWord "theta".data
      (fixWord "pi".data
        (fixWord "mu".data
          (fixWord "times".data
            (fixTok "sqrt\x7b".data "\\sqrt\x7b".data
              (fixTok "frac\x7b".data "\\frac\x7b".data
                (fixTok "ext\x7b".data "\\text\x7b".data s)))))))

/-- `repairMalformedLatex`: `if (!text) return ""` then the replace chain. -/
def repairMalformedLatex (s : String) : String :=
  if s = "" then "" else String.mk (repairChars s.data)

/-- One unwrap rule of `latexToSimple` of the shape `pre{content}` → `keep ++
content`, where `content` is the run of characters up to the first `}` (the
regex content class is `[^}]*`).  Used for `\text{...}` → `...`,
`\mathrm{...}` → `...`, `^{...}` → `^...` and `_{...}` → `_...`. -/
def braceCollapseF (pre keep : List Char) : Nat → List Char → List Char
  | _, [] => []
  | 0, s => s
  | f+1, c :: cs =>
    if (pre ++ [ '\x7b' ]).isPrefixOf (c :: cs) ∧
        '\x7d' ∈ ((c :: cs).drop (pre.length + 1)) then
      keep ++ ((c :: cs).drop (pre.length + 1)).takeWhile (· ≠ '\x7d') ++
        braceCollapseF pre keep f
          ((((c :: cs).drop (pre.length + 1)).dropWhile (· ≠ '\x7d')).drop 1)
    else c :: braceCollapseF pre keep f cs

/-- Unwrap rule wrapper. -/
def braceCollapse (pre keep s : List Char) : List Char :=
  braceCollapseF pre keep s.length s

/-- `[A-Za-z0-9]` character class. -/
def isAlnum (c : Char) : Bool := c.isAlpha ∨ c.isDigit

/-- The single-superscript/subscript rules `\^([A-Za-z0-9])` → `^$1` and
`_([A-Za-z0-9])` → `_$1` of `latexToSimple`.  The replacement reconstructs the
match, so the rule is the identity; embedded faithfully. -/
def tagSingleF (tag : Char) : Nat → List Char → List Char
  | _, [] => []
  | 0, s => s
  | f+1, c :: cs =>
    match cs with
    | [] => [c]
    | d :: ds =>
      if c = tag ∧ isAlnum d then c :: d :: tagSingleF tag f ds
      else c :: tagSingleF tag f (d :: ds)

/-- Single-character tag rule wrapper. -/
def tagSingle (tag : Char) (s : List Char) : List Char :=
  tagSingleF tag s.length s

/-- `\s+` → `" "`: every maximal whitespace run collapses to one space. -/
def collapseWsF : Nat → List Char → List Char
  | _, [] => []
  | 0, s => s
  | f+1, c :: cs =>
    if jsWs c then ' ' :: collapseWsF f (cs.dropWhile jsWs)
    else c :: collapseWsF f cs

/-- Whitespace-run collapse wrapper. -/
def collapseWs (s : List Char) : List Char :=
  collapseWsF s.length s

/-- JavaScript `String.prototype.trim` (both ends). -/
def jsTrim (s : List Char) : List Char :=
  ((s.reverse.dropWhile jsWs).reverse).dropWhile jsWs

/-- `latexToSimple` of src/services/geminiService.ts on character lists, rule
for rule in source order: remove `$`; unwrap `\text{}`/`\mathrm{}`; collapse
braced and single superscripts/subscripts; spacing commands to spaces; symbol
commands to Unicode; collapse whitespace and trim. -/
def simplifyChars (s : List Char) : List Char :=
  jsTrim (collapseWs
    (replaceAll "\\Omega".data "Ω".data
      (replaceAll "\\Delta".data "Δ".data
        (replaceAll "\\theta".data "θ".data
          (replaceAll "\\pi".data "π".data
            (replaceAll "\\circ".data "°".data
              (replaceAll "\\mu".data "μ".data
                (replaceAll "\\times".data "×".data
                  (replaceAll "\\:".data " ".data
                    (replaceAll "\\;".data " ".data
                      (replaceAll "\\,".data " ".data
                        (tagSingle '_'
                          (tagSingle '^'
                            (braceCollapse "_".data "_".data
                              (braceCollapse "^".data "^".data
                                (braceCollapse "\\mathrm".data []
                                  (braceCollapse "\\text".data []
                                    (replaceAll "$".data [] s))))))))))))))))))

/-- `latexToSimple`: `if (!text) return ""` then the replace chain. -/
def latexToSimple (s : String) : String :=
  if s = "" then "" else String.mk (simplifyChars s.data)

/-- Loosely-typed JavaScript values as they occur in the pipeline: the result
of `JSON.parse` plus `undefined` (the value of an absent object property).
JSON numbers are modelled as integers. -/
inductive JSVal where
  | undefined
  | null
  | bool (b : Bool)
  | num (n : Int)
  | str (s : String)
  | arr (elems : List JSVal)
  | obj (fields : List (String × JSVal))

/-- JavaScript property access `q[key]`: `undefined` on non-objects and
absent keys; with duplicate keys the later entry wins (as after
`JSON.parse`). -/
def jsGet (q : JSVal) (key : String) : JSVal :=
  match q with
  | .obj fields => fields.foldl (fun acc kv => if kv.1 = key then kv.2 else acc) .undefined
  | _ => .undefined

/-- JavaScript truthiness: `undefined`, `null`, `false`, `0` and `""` are
falsy; every array and object (including `[]` and `{}`) is truthy. -/
def truthy : JSVal → Bool
  | .undefined => false
  | .null => false
  | .bool b => b
  | .num n => n ≠ 0
  | .str s => s ≠ ""
  | .arr _ => true
  | .obj _ => true

/-- JavaScript short-circuiting `a || b`. -/
def jsOr (a b : JSVal) : JSVal := if truthy a then a else b

/-- JavaScript `Array.isArray`. -/
def isArr : JSVal → Bool
  | .arr _ => true
  | _ => false

/-- Decimal digits of a natural number, least significant first
(fuel-indexed). -/
def digsLE : Nat → Nat → List Char
  | 0, _ => []
  | f+1, n => if n = 0 then [] else Nat.digitChar (n % 10) :: digsLE f (n / 10)

/-- Decimal rendering of a natural number, as JavaScript number-to-string
conversion produces for the (non-negative integral) numbers of this
pipeline. -/
def natToString (n : Nat) : String :=
  if n = 0 then "0" else String.mk (digsLE (n + 1) n).reverse

/-- Decimal rendering of an integer. -/
def intToString (n : Int) : String :=
  if n < 0 then "-" ++ natToString n.natAbs else natToString n.natAbs

/-- The non-recursive cases of JavaScript `String(x)`; arrays are rendered by
`jsToStringList` at the call sites (the array case here is unused). -/
def jsBaseString : JSVal → String
  | .undefined => "undefined"
  | .null => "null"
  | .bool true => "true"
  | .bool false => "false"
  | .num n => intToString n
  | .str s => s
  | .arr _ => ""
  | .obj _ => "[object Object]"

mutual

/-- `Array.prototype.join(",")` over `String`-converted elements, as invoked
by JavaScript `String(array)`. -/
def jsToStringList : List JSVal → String
  | [] => ""
  | [x] => jsToStringElem x
  | x :: y :: rest => jsToStringElem x ++ "," ++ jsToStringList (y :: rest)

/-- One array element under `join`: `null` and `undefined` render empty,
nested arrays join recursively. -/
def jsToStringElem : JSVal → String
  | .undefined => ""
  | .null => ""
  | .arr xs => jsToStringList xs
  | x => jsBaseString x

end

/-- JavaScript `String(x)` conversion on the embedded values: arrays convert
as `Array.prototype.join(",")` with `null`/`undefined` elements rendered
empty; objects render as `[object Object]`. -/
def jsToString : JSVal → String
  | .arr xs => jsToStringList xs
  | x => jsBaseString x

/-- Value of a list of decimal digit characters, most significant first. -/
def digitsVal (ds : List Char) : Nat :=
  ds.foldl (fun acc c => acc * 10 + (c.toNat - 48)) 0

/-- JavaScript `parseInt(s)` (radix 10, without the hexadecimal `0x` special
case): skip leading whitespace, an optional sign, then the longest leading
digit run; `NaN` (here `none`) if that run is empty. -/
def parseIntJS (s : String) : Option Int :=
  let t := s.data.dropWhile jsWs
  let signed : Bool × List Char :=
    match t with
    | '-' :: r => (true, r)
    | '+' :: r => (false, r)
    | _ => (false, t)
  let ds := signed.2.takeWhile Char.isDigit
  if ds = [] then none
  else some (if signed.1 then -(digitsVal ds : Int) else (digitsVal ds : Int))

/-- Strict JSON whitespace. -/
def jsonWs (c : Char) : Bool :=
  c = ' ' ∨ c = '\t' ∨ c = '\n' ∨ c = '\r'

/-- Hexadecimal digit value. -/
def hexVal (c : Char) : Option Nat :=
  if '0' ≤ c ∧ c ≤ '9' then some (c.toNat - 48)
  else if 'a' ≤ c ∧ c ≤ 'f' then some (c.toNat - 87)
  else if 'A' ≤ c ∧ c ≤ 'F' then some (c.toNat - 55)
  else none

/-- JSON string-body parser: consumes up to and including the closing quote.
Supports the JSON escapes; rejects unescaped control characters and invalid
`\u` scalars. -/
def parseJStr : Nat → List Char → Option (List Char × List Char)
  | 0, _ => none
  | _, [] => none
  | f+1, c :: cs =>
    if c = '"' then some ([], cs)
    else if c = '\\' then
      match cs with
      | [] => none
      | e :: cs' =>
        let esc : Option (Char × List Char) :=
          if e = '"' then some ('"', cs')
          else if e = '\\' then some ('\\', cs')
          else if e = '/' then some ('/', cs')
          else if e = 'n' then some ('\n', cs')
          else if e = 't' then some ('\t', cs')
          else if e = 'r' then some ('\r', cs')
          else if e = 'b' then some ('\x08', cs')
          else if e = 'f' then some ('\x0c', cs')
          else if e = 'u' then
            match cs' with
            | h1 :: h2 :: h3 :: h4 :: cs'' =>
              match hexVal h1, hexVal h2, hexVal h3, hexVal h4 with
              | some a, some b, some c, some d =>
                let code := ((a * 16 + b) * 16 + c) * 16 + d
                if code < 0xd800 then some (Char.ofNat code, cs'')
                else none
              | _, _, _, _ => none
            | _ => none
          else none
        match esc with
        | some (ch, rest) =>
          match parseJStr f rest with
          | some (body, rest') => some (ch :: body, rest')
          | none => none
        | none => none
    else if c.toNat < 32 then none
    else
      match parseJStr f cs with
      | some (body, rest') => some (c :: body, rest')
      | none => none

/-- JSON number parser (integer part only): optional minus, digit run without
a redundant leading zero, and no fraction/exponent continuation (non-integer
numbers are outside this model). -/
def parseJNum (s : List Char) : Option (Int × List Char) :=
  let signed : Bool × List Char :=
    match s with
    | '-' :: r => (true, r)
    | _ => (false, s)
  let ds := signed.2.takeWhile Char.isDigit
  let rest := signed.2.dropWhile Char.isDigit
  if ds = [] then none
  else if 2 ≤ ds.length ∧ ds.head? = some '0' then none
  else
    match rest with
    | '.' :: _ => none
    | 'e' :: _ => none
    | 'E' :: _ => none
    | _ => some (if signed.1 then -(digitsVal ds : Int) else (digitsVal ds : Int), rest)

mutual

/-- Recursive-descent JSON value parser (fuel-indexed): skips leading
whitespace, parses one value, returns the unconsumed remainder. -/
def parseJVal : Nat → List Char → Option (JSVal × List Char)
  | 0, _ => none
  | f+1, s =>
    match s.dropWhile jsonWs with
    | [] => none
    | c :: cs =>
      if c = 'n' then
        if "ull".data.isPrefixOf cs then some (.null, cs.drop 3) else none
      else if c = 't' then
        if "rue".data.isPrefixOf cs then some (.bool true, cs.drop 3) else none
      else if c = 'f' then
        if "alse".data.isPrefixOf cs then some (.bool false, cs.drop 4) else none
      else if c = '"' then
        match parseJStr (cs.length + 1) cs with
        | some (body, rest) => some (.str (String.mk body), rest)
        | none => none
      else if c = '[' then
        match cs.dropWhile jsonWs with
        | ']' :: rest => some (.arr [], rest)
        | _ =>
          match parseJArr f cs with
          | some (xs, rest) => some (.arr xs, rest)
          | none => none
      else if c = '\x7b' then
        match cs.dropWhile jsonWs with
        | '\x7d' :: rest => some (.obj [], rest)
        | _ =>
          match parseJObj f cs with
          | some (fs, rest) => some (.obj fs, rest)
          | none => none
      else
        match parseJNum (c :: cs) with
        | some (n, rest) => some (.num n, rest)
        | none => none

/-- Nonempty JSON array elements: value, then `,` more elements or `]`. -/
def parseJArr : Nat → List Char → Option (List JSVal × List Char)
  | 0, _ => none
  | f+1, s =>
    match parseJVal f s with
    | none => none
    | some (v, rest) =>
      match rest.dropWhile jsonWs with
      | ',' :: rest' =>
        match parseJArr f rest' with
        | some (xs, rest'') => some (v :: xs, rest'')
        | none => none
      | ']' :: rest' => some ([v], rest')
      | _ => none

/-- Nonempty JSON object members: `"key": value`, then `,` more members or
`}`. -/
def parseJObj : Nat → List Char → Option (List (String × JSVal) × List Char)
  | 0, _ => none
  | f+1, s =>
    match s.dropWhile jsonWs with
    | '"' :: cs =>
      match parseJStr (cs.length + 1) cs with
      | none => none
      | some (key, rest) =>
        match rest.dropWhile jsonWs with
        | ':' :: rest' =>
          match parseJVal f rest' with
          | none => none
          | some (v, rest'') =>
            match rest''.dropWhile jsonWs with
            | ',' :: rest''' =>
              match parseJObj f rest''' with
              | some (fs, r) => some ((String.mk key, v) :: fs, r)
              | none => none
            | '\x7d' :: rest''' => some ([(String.mk key, v)], rest''')
            | _ => none
        | _ => none
    | _ => none

end

/-- `JSON.parse`: parse one value and require only whitespace to remain. -/
def parseJSON (s : String) : Option JSVal :=
  match parseJVal (s.length + 1) s.data with
  | some (v, rest) => if rest.dropWhile jsonWs = [] then some v else none
  | none => none

/-- Index of the first occurrence of `c` (JavaScript `indexOf`, with `-1`
modelled as `none`). -/
def firstIdx (l : List Char) (c : Char) : Option Nat :=
  l.findIdx? (· = c)

/-- Index of the last occurrence of `c` (JavaScript `lastIndexOf`). -/
def lastIdx (l : List Char) (c : Char) : Option Nat :=
  match l.reverse.findIdx? (· = c) with
  | some k => some (l.length - 1 - k)
  | none => none

/-- JavaScript `String.prototype.substring(a, b)`: both indices are clamped
to the string length and swapped when `a > b`. -/
def jsSubstring (s : String) (a b : Nat) : String :=
  String.mk (((s.data.take (min (max a b) s.data.length)).drop (min a b)))

/-- `cleanAndParseJSON` of src/services/geminiService.ts.  The whole body of
the source function sits in a single `try`: when the first `[` and the last
`]` both exist, the bracket substring is parsed and a parse failure throws to
the `catch` (which returns `[]`); the code-fence fallback runs only when one
of the brackets is absent. -/
def cleanAndParseJSON (text : String) : JSVal :=
  if text = "" then .arr []
  else
    match firstIdx text.data '[', lastIdx text.data ']' with
    | some i, some j =>
      match parseJSON (jsSubstring text i (j + 1)) with
      | some v => v
      | none => .arr []
    | _, _ =>
      match parseJSON (String.mk (jsTrim
          (replaceAll "```".data [] (replaceAll "```json".data [] text.data)))) with
      | some v => v
      | none => .arr []

/-- The canonical question record, with the fields constructed by
`normalizeQuestion` (the `Question` interface itself lives in the
repository's `types.ts`, which only names these fields). -/
structure Question where
  id : String
  text : String
  options : List String
  correctIndex : Int
  explanation : String
deriving DecidableEq

/-- `q.question || q.Question || q.text || q.query`. -/
def resolveQuestionText (q : JSVal) : JSVal :=
  jsOr (jsOr (jsOr (jsGet q "question") (jsGet q "Question")) (jsGet q "text")) (jsGet q "query")

/-- `q.options || q.Options || q.choices || q.answers`. -/
def resolveOptions (q : JSVal) : JSVal :=
  jsOr (jsOr (jsOr (jsGet q "options") (jsGet q "Options")) (jsGet q "choices")) (jsGet q "answers")

/-- `q.explanation || q.Explanation || "No explanation provided."`. -/
def resolveExplanation (q : JSVal) : JSVal :=
  jsOr (jsOr (jsGet q "explanation") (jsGet q "Explanation")) (.str "No explanation provided.")

/-- The text pipeline of `normalizeQuestion`:
`latexToSimple(repairMalformedLatex(String(txt)))`. -/
def processText (v : JSVal) : String :=
  latexToSimple (repairMalformedLatex (jsToString v))

/-- Resolution of the correct-answer index before clamping: a number is taken
directly; a string goes through `parseInt(s) || 0` (both an unparseable
string, i.e. `NaN`, and a parsed `0` yield `0`, which is `Option.getD 0`);
otherwise a numeric `answerIndex` is accepted; the default is `0`. -/
def resolveCorrectIdx (q : JSVal) : Int :=
  match jsGet q "correctIndex" with
  | .num n => n
  | .str s => (parseIntJS s).getD 0
  | _ =>
    match jsGet q "answerIndex" with
    | .num n => n
    | _ => 0

/-- The clamp of `normalizeQuestion`: `if (correctIdx < 0) correctIdx = 0;
if (correctIdx >= cleanOptions.length) correctIdx = cleanOptions.length - 1`.
-/
def clampIdx (n : Int) (len : Nat) : Int :=
  if n < 0 then 0
  else if (len : Int) ≤ n then (len : Int) - 1
  else n

/-- The generated id `` `${prefix}-${Date.now()}-${index}` `` with the
timestamp passed explicitly. -/
def mkId (pfx : String) (now index : Nat) : String :=
  pfx ++ "-" ++ natToString now ++ "-" ++ natToString index

/-- `normalizeQuestion` of src/services/geminiService.ts, with `Date.now()`
explicit: resolve the question text and options through the alias chains;
reject unless the text is truthy, the options value is an array, and it has
at least 2 elements; otherwise build the canonical record with processed
texts, the clamped index, and the generated id. -/
def normalizeQuestion (q : JSVal) (index : Nat) (pfx : String) (now : Nat) : Option Question :=
  if ¬ truthy (resolveQuestionText q) then none
  else
    match resolveOptions q with
    | .arr opts =>
      if opts.length < 2 then none
      else some {
        id := mkId pfx now index,
        text := processText (resolveQuestionText q),
        options := opts.map processText,
        correctIndex := clampIdx (resolveCorrectIdx q) (opts.map processText).length,
        explanation := processText (resolveExplanation q) }
    | _ => none

/-- The response-processing tail shared by `generateBattleQuestions` and
`generatePracticeQuestions`: extract candidates with `cleanAndParseJSON`, map
them through `normalizeQuestion`, and drop the rejected ones.  When the
extractor yields a non-array, the source's `rawData.map` call throws a
`TypeError` that the surrounding `catch` turns into `[]`. -/
def processResponse (text : String) (pfx : String) (now : Nat) : List Question :=
  match cleanAndParseJSON text with
  | .arr raws =>
    (raws.enum.map (fun iq => normalizeQuestion iq.2 iq.1 pfx now)).filterMap id
  | _ => []

/-- The post-response core of `generateBattleQuestions` (model invocation and
transport are outside the model; its batch prefix is `battle`). -/
def generateBattleQuestions (responseText : String) (now : Nat) : List Question :=
  processResponse responseText "battle" now

/-- The post-response core of `generatePracticeQuestions` (batch prefix
`practice`). -/
def generatePracticeQuestions (responseText : String) (now : Nat) : List Question :=
  processResponse responseText "practice" now

/-! ## Helper lemmas -/

/-- Value of a little-endian digit list (helper for the injectivity of
`natToString`). -/
def valLE : List Char → Nat
  | [] => 0
  | c :: cs => (c.toNat - 48) + 10 * valLE cs

theorem digitChar_toNat (d : Nat) (h : d < 10) : (Nat.digitChar d).toNat - 48 = d := by
  interval_cases d <;> rfl

theorem valLE_digsLE (f : Nat) : ∀ n, n ≤ f → valLE (digsLE f n) = n := by
  induction f with
  | zero => intro n hn; interval_cases n; rfl
  | succ f ih =>
    intro n hn
    by_cases h0 : n = 0
    · subst h0; rfl
    · have hdiv : n / 10 ≤ f := by omega
      calc valLE (digsLE (f + 1) n)
          = (Nat.digitChar (n % 10)).toNat - 48 + 10 * valLE (digsLE f (n / 10)) := by
            simp [digsLE, h0, valLE]
        _ = n % 10 + 10 * (n / 10) := by
            rw [digitChar_toNat (n % 10) (Nat.mod_lt n (by omega)), ih (n / 10) hdiv]
        _ = n := by omega

theorem valLE_natToString (n : Nat) : valLE (natToString n).data.reverse = n := by
  unfold natToString
  by_cases h0 : n = 0
  · subst h0; rfl
  · simp only [h0, if_false, ite_false]
    show valLE (digsLE (n + 1) n).reverse.reverse = n
    rw [List.reverse_reverse]
    exact valLE_digsLE (n + 1) n (by omega)

theorem natToString_injective (m n : Nat) (h : natToString m = natToString n) : m = n := by
  have := congrArg (fun s : String => valLE s.data.reverse) h
  simpa [valLE_natToString] using this

theorem mkId_injective_index (p : String) (now i j : Nat) (h : mkId p now i = mkId p now j) :
    i = j := by
  unfold mkId at h
  have hd : (p ++ "-" ++ natToString now ++ "-").data ++ (natToString i).data
      = (p ++ "-" ++ natToString now ++ "-").data ++ (natToString j).data := by
    have := congrArg String.data h
    simpa [String.data_append, List.append_assoc] using this
  have : (natToString i).data = (natToString j).data := List.append_cancel_left hd
  exact natToString_injective i j (String.ext this)

theorem clampIdx_nonneg (n : Int) (len : Nat) (h : 0 < len) : 0 ≤ clampIdx n len := by
  unfold clampIdx
  split <;> [omega; skip]
  split <;> omega

theorem clampIdx_lt (n : Int) (len : Nat) (h : 0 < len) : clampIdx n len < (len : Int) := by
  unfold clampIdx
  split <;> [omega; skip]
  split <;> omega

theorem normalizeQuestion_some (q : JSVal) (i : Nat) (p : String) (now : Nat)
    (opts : List JSVal) (h1 : truthy (resolveQuestionText q))
    (h2 : resolveOptions q = JSVal.arr opts) (h3 : 2 ≤ opts.length) :
    normalizeQuestion q i p now = some {
      id := mkId p now i,
      text := processText (resolveQuestionText q),
      options := opts.map processText,
      correctIndex := clampIdx (resolveCorrectIdx q) (opts.map processText).length,
      explanation := processText (resolveExplanation q) } := by
  unfold normalizeQuestion
  rw [h2]
  simp [h1]
  omega

theorem normalizeQuestion_id (q : JSVal) (i : Nat) (p : String) (now : Nat)
    (c : Question) (h : normalizeQuestion q i p now = some c) : c.id = mkId p now i := by
  unfold normalizeQuestion at h
  split at h
  · exact absurd h (by simp)
  · split at h
    · split at h
      · exact absurd h (by simp)
      · have := Option.some.inj h
        rw [← this]
    · exact absurd h (by simp)

/-! ## Claims -/

/-- C10: the extractor's result is not always a sequence: the input "5"
contains no bracket, its fence-stripped trimmed text parses as the JSON
number 5, and `cleanAndParseJSON` returns that non-array value itself rather
than an empty candidate sequence. -/
theorem cleanAndParseJSON_nonarray_result :
    firstIdx "5".data '[' = none ∧ lastIdx "5".data ']' = none ∧
    cleanAndParseJSON "5" = JSVal.num 5 ∧
    isArr (cleanAndParseJSON "5") = false ∧
    cleanAndParseJSON "5" ≠ JSVal.arr [] :=
  ⟨rfl, rfl, rfl, rfl,
    fun h => JSVal.noConfusion ((rfl : cleanAndParseJSON "5" = JSVal.num 5).symm.trans h)⟩

/-- C1, counterexample: the input `"[y]"` (a quoted JSON string) contains
both brackets, its bracket substring `[y]` fails to parse, and the
fence-stripped trimmed whole text parses successfully as the JSON string
`[y]` — yet `cleanAndParseJSON` returns `[]`, not the fallback parse's
result, because the parse failure throws to the surrounding `catch` before
the fallback is reached. -/
theorem cleanAndParseJSON_fallback_cex :
    firstIdx "\"[y]\"".data '[' = some 1 ∧
    lastIdx "\"[y]\"".data ']' = some 3 ∧
    parseJSON (jsSubstring "\"[y]\"" 1 4) = none ∧
    parseJSON (String.mk (jsTrim
      (replaceAll "```".data [] (replaceAll "```json".data [] "\"[y]\"".data))))
      = some (JSVal.str "[y]") ∧
    cleanAndParseJSON "\"[y]\"" = JSVal.arr [] ∧
    cleanAndParseJSON "\"[y]\"" ≠ JSVal.str "[y]" :=
  ⟨rfl, rfl, rfl, rfl, rfl,
    fun h => JSVal.noConfusion
      ((rfl : cleanAndParseJSON "\"[y]\"" = JSVal.arr []).symm.trans h)⟩

/-- C1, amended: when the input contains both a first `[` and a last `]` but
the substring between them fails to parse as JSON, `cleanAndParseJSON`
returns the empty array (the thrown parse error reaches the `catch`); the
code-fence-stripping fallback is attempted only when one of the brackets is
absent. -/
theorem cleanAndParseJSON_bracket_failure (text : String) (i j : Nat)
    (hne : text ≠ "") (hi : firstIdx text.data '[' = some i)
    (hj : lastIdx text.data ']' = some j)
    (hp : parseJSON (jsSubstring text i (j + 1)) = none) :
    cleanAndParseJSON text = JSVal.arr [] := by
  simp only [cleanAndParseJSON, if_neg hne, hi, hj, hp]

/-- C1, witness for the amended theorem at the concrete input `"[y]"`. -/
theorem cleanAndParseJSON_bracket_failure_witness :
    cleanAndParseJSON "\"[y]\"" = JSVal.arr [] :=
  cleanAndParseJSON_bracket_failure "\"[y]\"" 1 3 (by decide) rfl rfl rfl

/-- C4, counterexample: a raw candidate whose question text sits only under
`Question` and whose two-element options array sits only under `Answers`
(capital A) is rejected by `normalizeQuestion`: the options alias chain of
the source is `options || Options || choices || answers` and does not try
`Answers`. -/
theorem normalizeQuestion_Answers_cex :
    jsGet (JSVal.obj [("Question", JSVal.str "Q1"),
        ("Answers", JSVal.arr [JSVal.str "A", JSVal.str "B"])]) "question" = JSVal.undefined ∧
    truthy (jsGet (JSVal.obj [("Question", JSVal.str "Q1"),
        ("Answers", JSVal.arr [JSVal.str "A", JSVal.str "B"])]) "Question") = true ∧
    jsGet (JSVal.obj [("Question", JSVal.str "Q1"),
        ("Answers", JSVal.arr [JSVal.str "A", JSVal.str "B"])]) "Answers"
      = JSVal.arr [JSVal.str "A", JSVal.str "B"] ∧
    normalizeQuestion (JSVal.obj [("Question", JSVal.str "Q1"),
        ("Answers", JSVal.arr [JSVal.str "A", JSVal.str "B"])]) 0 "battle" 0 = none :=
  ⟨rfl, rfl, rfl, rfl⟩

/-- C4, amended: with the options array under the lowercase alias `answers`
(the alias the source actually tries) and the question text under `Question`,
`normalizeQuestion` resolves both through its fallback key lists and accepts
the candidate. -/
theorem normalizeQuestion_fallback_keys (q : JSVal) (i : Nat) (p : String) (now : Nat)
    (xs : List JSVal)
    (hq0 : truthy (jsGet q "question") = false)
    (hq1 : truthy (jsGet q "Question") = true)
    (ho0 : jsGet q "options" = JSVal.undefined)
    (ho1 : jsGet q "Options" = JSVal.undefined)
    (ho2 : jsGet q "choices" = JSVal.undefined)
    (ho3 : jsGet q "answers" = JSVal.arr xs)
    (hlen : 2 ≤ xs.length) :
    ∃ c, normalizeQuestion q i p now = some c := by
  have hqt : truthy (resolveQuestionText q) := by
    unfold resolveQuestionText jsOr
    rw [hq0]
    simp only [if_false, Bool.false_eq_true]
    rw [hq1]
    simp [hq1]
  have hopts : resolveOptions q = JSVal.arr xs := by
    unfold resolveOptions jsOr
    rw [ho0, ho1, ho2, ho3]
    simp [truthy]
  exact ⟨_, normalizeQuestion_some q i p now xs hqt hopts hlen⟩

/-- C4, witness for the amended theorem at a concrete candidate. -/
theorem normalizeQuestion_fallback_keys_witness :
    ∃ c, normalizeQuestion (JSVal.obj [("Question", JSVal.str "Q1"),
        ("answers", JSVal.arr [JSVal.str "A", JSVal.str "B"])]) 0 "battle" 0 = some c :=
  normalizeQuestion_fallback_keys _ 0 "battle" 0 [JSVal.str "A", JSVal.str "B"]
    rfl rfl rfl rfl rfl rfl (by decide)

/-- C5: every raw candidate with a truthy resolved question text and an
options array of at least 2 elements is accepted, the options list keeps its
length, and the correct index lands in `[0, options.length)`. -/
theorem normalizeQuestion_accepts_wellformed (q : JSVal) (i : Nat) (p : String) (now : Nat)
    (opts : List JSVal) (h1 : truthy (resolveQuestionText q))
    (h2 : resolveOptions q = JSVal.arr opts) (h3 : 2 ≤ opts.length) :
    ∃ c, normalizeQuestion q i p now = some c ∧
      c.options.length = opts.length ∧
      0 ≤ c.correctIndex ∧ c.correctIndex < (opts.length : Int) := by
  refine ⟨_, normalizeQuestion_some q i p now opts h1 h2 h3, ?_, ?_, ?_⟩
  · simp
  · exact clampIdx_nonneg _ _ (by simp; omega)
  · have := clampIdx_lt (resolveCorrectIdx q) (opts.map processText).length (by simp; omega)
    simpa using this

/-- C5, witness at a concrete well-formed candidate. -/
theorem normalizeQuestion_accepts_wellformed_witness :
    ∃ c, normalizeQuestion (JSVal.obj [("question", JSVal.str "Q1"),
        ("options", JSVal.arr [JSVal.str "A", JSVal.str "B", JSVal.str "C"]),
        ("correctIndex", JSVal.num 7)]) 4 "practice" 9 = some c ∧
      c.options.length = 3 ∧ 0 ≤ c.correctIndex ∧ c.correctIndex < (3 : Int) :=
  normalizeQuestion_accepts_wellformed _ 4 "practice" 9
    [JSVal.str "A", JSVal.str "B", JSVal.str "C"] rfl rfl (by decide)

/-- C6: a raw candidate is rejected (`none`) when no question text resolves
to a truthy value, or the resolved options value is not an array, or the
options array has fewer than 2 elements. -/
theorem normalizeQuestion_rejects (q : JSVal) (i : Nat) (p : String) (now : Nat)
    (h : truthy (resolveQuestionText q) = false ∨
      isArr (resolveOptions q) = false ∨
      ∃ xs, resolveOptions q = JSVal.arr xs ∧ xs.length < 2) :
    normalizeQuestion q i p now = none := by
  unfold normalizeQuestion
  rcases h with h | h | ⟨xs, hxs, hlen⟩
  · simp [h]
  · split
    · rfl
    · cases hv : resolveOptions q <;> first
      | rfl
      | (rw [hv] at h; simp [isArr] at h)
  · split
    · rfl
    · rw [hxs]
      simp [hlen]

/-- C6, witness at a concrete candidate with a single option. -/
theorem normalizeQuestion_rejects_witness :
    normalizeQuestion (JSVal.obj [("question", JSVal.str "Q1"),
        ("options", JSVal.arr [JSVal.str "A"])]) 0 "battle" 0 = none :=
  normalizeQuestion_rejects _ 0 "battle" 0
    (Or.inr (Or.inr ⟨[JSVal.str "A"], rfl, by decide⟩))

/-- C7: an accepted candidate's out-of-range resolved index is clamped into
`[0, options.length - 1]`, never rejected; and on the spec's concrete model
response text (with literal backslash-n sequences and embedded code fences),
extraction followed by normalization yields exactly one canonical question
whose correct index was clamped from 5 to 1. -/
theorem normalizeQuestion_clamps (q : JSVal) (i : Nat) (p : String) (now : Nat)
    (c : Question) (h : normalizeQuestion q i p now = some c) :
    (0 ≤ c.correctIndex ∧ c.correctIndex < (c.options.length : Int)) ∧
    processResponse "Here you go:\\n```json\\n[\x7b\"question\":\"Q1\",\"options\":[\"A\",\"B\"],\"correctIndex\":5\x7d]\\n```"
        "battle" 0
      = [⟨"battle-0-0", "Q1", ["A", "B"], 1, "No explanation provided."⟩] := by
  refine ⟨?_, rfl⟩
  unfold normalizeQuestion at h
  split at h
  · exact absurd h (by simp)
  · split at h
    · split at h
      · exact absurd h (by simp)
      · rename_i opts hopts hlen
        have hc := Option.some.inj h
        rw [← hc]
        simp only []
        constructor
        · exact clampIdx_nonneg _ _ (by simp; omega)
        · have := clampIdx_lt (resolveCorrectIdx q) (opts.map processText).length
            (by simp; omega)
          simpa using this
    · exact absurd h (by simp)

/-- C7, witness: the concrete candidate of the response text is accepted and
in range. -/
theorem normalizeQuestion_clamps_witness :
    (0 ≤ (1 : Int) ∧ (1 : Int) < ((["A", "B"] : List String).length : Int)) ∧
    processResponse "Here you go:\\n```json\\n[\x7b\"question\":\"Q1\",\"options\":[\"A\",\"B\"],\"correctIndex\":5\x7d]\\n```"
        "battle" 0
      = [⟨"battle-0-0", "Q1", ["A", "B"], 1, "No explanation provided."⟩] :=
  normalizeQuestion_clamps
    (JSVal.obj [("question", JSVal.str "Q1"),
      ("options", JSVal.arr [JSVal.str "A", JSVal.str "B"]),
      ("correctIndex", JSVal.num 5)]) 0 "battle" 0
    ⟨"battle-0-0", "Q1", ["A", "B"], 1, "No explanation provided."⟩ rfl

/-- C8: when a candidate accepted by `normalizeQuestion` carries its
`correctIndex` as a string, the index resolution parses a numeric-looking
string to its integer value and an unparseable string to 0 (before
clamping). -/
theorem resolveCorrectIdx_string (q : JSVal) (i : Nat) (p : String) (now : Nat)
    (c : Question) (s : String)
    (_hacc : normalizeQuestion q i p now = some c)
    (hs : jsGet q "correctIndex" = JSVal.str s) :
    (∀ n : Int, parseIntJS s = some n → resolveCorrectIdx q = n) ∧
    (parseIntJS s = none → resolveCorrectIdx q = 0) := by
  constructor
  · intro n hn
    unfold resolveCorrectIdx
    rw [hs]
    show (parseIntJS s).getD 0 = n
    rw [hn]
    rfl
  · intro hn
    unfold resolveCorrectIdx
    rw [hs]
    show (parseIntJS s).getD 0 = 0
    rw [hn]
    rfl

/-- C8, witness: the string "2" resolves to 2 and the string "abc" resolves
to 0, at accepted concrete candidates. -/
theorem resolveCorrectIdx_string_witness :
    resolveCorrectIdx (JSVal.obj [("question", JSVal.str "Q1"),
      ("options", JSVal.arr [JSVal.str "A", JSVal.str "B"]),
      ("correctIndex", JSVal.str "2")]) = 2 ∧
    resolveCorrectIdx (JSVal.obj [("question", JSVal.str "Q1"),
      ("options", JSVal.arr [JSVal.str "A", JSVal.str "B"]),
      ("correctIndex", JSVal.str "abc")]) = 0 :=
  ⟨(resolveCorrectIdx_string
      (JSVal.obj [("question", JSVal.str "Q1"),
        ("options", JSVal.arr [JSVal.str "A", JSVal.str "B"]),
        ("correctIndex", JSVal.str "2")]) 0 "battle" 0
      ⟨"battle-0-0", "Q1", ["A", "B"], 1, "No explanation provided."⟩ "2" rfl rfl).1 2 rfl,
    (resolveCorrectIdx_string
      (JSVal.obj [("question", JSVal.str "Q1"),
        ("options", JSVal.arr [JSVal.str "A", JSVal.str "B"]),
        ("correctIndex", JSVal.str "abc")]) 0 "battle" 0
      ⟨"battle-0-0", "Q1", ["A", "B"], 0, "No explanation provided."⟩ "abc" rfl rfl).2 rfl⟩

/-- C9: two successfully normalized items of one batch (same prefix without a
dash, same timestamp) at distinct positions receive distinct id strings. -/
theorem normalizeQuestion_ids_distinct (q₁ q₂ : JSVal) (i j : Nat) (p : String) (now : Nat)
    (c₁ c₂ : Question) (_hdash : '-' ∉ p.data) (hij : i ≠ j)
    (h₁ : normalizeQuestion q₁ i p now = some c₁)
    (h₂ : normalizeQuestion q₂ j p now = some c₂) :
    c₁.id ≠ c₂.id := by
  intro heq
  rw [normalizeQuestion_id q₁ i p now c₁ h₁, normalizeQuestion_id q₂ j p now c₂ h₂] at heq
  exact hij (mkId_injective_index p now i j heq)

/-- C9, witness: two concrete candidates at positions 0 and 1 get different
ids. -/
theorem normalizeQuestion_ids_distinct_witness :
    "battle-7-0" ≠ "battle-7-1" :=
  normalizeQuestion_ids_distinct
    (JSVal.obj [("question", JSVal.str "Q1"),
      ("options", JSVal.arr [JSVal.str "A", JSVal.str "B"])])
    (JSVal.obj [("question", JSVal.str "Q2"),
      ("options", JSVal.arr [JSVal.str "C", JSVal.str "D"])])
    0 1 "battle" 7
    ⟨"battle-7-0", "Q1", ["A", "B"], 0, "No explanation provided."⟩
    ⟨"battle-7-1", "Q2", ["C", "D"], 0, "No explanation provided."⟩
    (by decide) (by decide) rfl rfl

/-! ## List infrastructure for the rewriting lemmas -/

theorem prefix_append_cases {α : Type} {q as bs : List α} (h : q <+: as ++ bs) :
    q <+: as ∨ ∃ r, q = as ++ r ∧ r <+: bs := by
  induction as generalizing q with
  | nil => exact Or.inr ⟨q, rfl, h⟩
  | cons a as ih =>
    cases q with
    | nil => exact Or.inl List.nil_prefix
    | cons x q' =>
      rw [List.cons_append, List.cons_prefix_cons] at h
      obtain ⟨rfl, h'⟩ := h
      rcases ih h' with h'' | ⟨r, rfl, hr⟩
      · exact Or.inl (List.cons_prefix_cons.mpr ⟨rfl, h''⟩)
      · exact Or.inr ⟨r, rfl, hr⟩

theorem infix_append_cases {α : Type} {q xs ys : List α} (h : q <:+: xs ++ ys) :
    q <:+: xs ∨ q <:+: ys ∨
      ∃ a b, q = a ++ b ∧ a ≠ [] ∧ b ≠ [] ∧ a <:+ xs ∧ b <+: ys := by
  induction xs generalizing q with
  | nil => exact Or.inr (Or.inl h)
  | cons x xs ih =>
    rw [List.cons_append, List.infix_cons_iff] at h
    rcases h with h | h
    · cases q with
      | nil => exact Or.inl List.nil_infix
      | cons c q' =>
        rw [List.cons_prefix_cons] at h
        obtain ⟨rfl, h'⟩ := h
        rcases prefix_append_cases h' with h'' | ⟨r, rfl, hr⟩
        · exact Or.inl (List.cons_prefix_cons.mpr ⟨rfl, h''⟩).isInfix
        · cases r with
          | nil =>
            exact Or.inl (by rw [List.append_nil])
          | cons r0 rs =>
            exact Or.inr (Or.inr ⟨c :: xs, r0 :: rs, by simp, by simp, by simp,
              List.suffix_rfl, hr⟩)
    · rcases ih h with h' | h' | ⟨a, b, rfl, ha, hb, hsuf, hpre⟩
      · exact Or.inl (List.infix_cons_iff.mpr (Or.inr h'))
      · exact Or.inr (Or.inl h')
      · exact Or.inr (Or.inr ⟨a, b, rfl, ha, hb, hsuf.trans (List.suffix_cons x xs), hpre⟩)

theorem singleton_infix_iff {α : Type} {a : α} {l : List α} : [a] <:+: l ↔ a ∈ l := by
  constructor
  · intro h
    exact h.subset (by simp)
  · intro h
    obtain ⟨s, t, rfl⟩ := List.append_of_mem h
    exact ⟨s, t, by simp⟩

theorem dropWhile_head_false {α : Type} {p : α → Bool} {l : List α} {d : α} {ds : List α}
    (h : l.dropWhile p = d :: ds) : p d = false := by
  induction l with
  | nil => simp at h
  | cons c cs ih =>
    rw [List.dropWhile_cons] at h
    by_cases hc : p c = true
    · rw [if_pos hc] at h
      exact ih h
    · rw [if_neg hc] at h
      cases h
      simpa using hc

theorem infix_of_infix_suffix {α : Type} {q l₁ l₂ : List α} (h₁ : q <:+: l₁)
    (h₂ : l₁ <:+ l₂) : q <:+: l₂ :=
  h₁.trans h₂.isInfix

theorem infix_of_drop {α : Type} {q : List α} {l : List α} {n : Nat}
    (h : q <:+: l.drop n) : q <:+: l :=
  infix_of_infix_suffix h (List.drop_suffix n l)

/-! ## Lemmas about `replaceAll` -/

theorem replaceAllF_eq_of_not_infix (pat repl : List Char) :
    ∀ (f : Nat) (s : List Char), ¬ pat <:+: s → replaceAllF pat repl f s = s := by
  intro f
  induction f with
  | zero => intro s _; cases s <;> rfl
  | succ f ih =>
    intro s h
    cases s with
    | nil => rfl
    | cons c cs =>
      simp only [replaceAllF]
      rw [if_neg, ih cs (fun hin => h (List.infix_cons_iff.mpr (Or.inr hin)))]
      intro hcond
      exact h (List.isPrefixOf_iff_prefix.mp hcond.2).isInfix

theorem mem_replaceAllF (pat repl : List Char) :
    ∀ (f : Nat) (s : List Char) (c : Char),
      c ∈ replaceAllF pat repl f s → c ∈ s ∨ c ∈ repl := by
  intro f
  induction f with
  | zero => intro s c h; cases s <;> simp_all [replaceAllF]
  | succ f ih =>
    intro s c h
    cases s with
    | nil => simp [replaceAllF] at h
    | cons x cs =>
      simp only [replaceAllF] at h
      split at h
      · rcases List.mem_append.mp h with h' | h'
        · exact Or.inr h'
        · rcases ih _ _ h' with h'' | h''
          · exact Or.inl (List.mem_of_mem_drop h'')
          · exact Or.inr h''
      · rcases List.mem_cons.mp h with rfl | h'
        · exact Or.inl (List.mem_cons_self _ _)
        · rcases ih _ _ h' with h'' | h''
          · exact Or.inl (List.mem_cons_of_mem _ h'')
          · exact Or.inr h''

theorem prefix_replaceAllF (pat repl : List Char) (hrepl : repl ≠ []) :
    ∀ (f : Nat) (s q : List Char), (∀ ch ∈ q, ch ∉ repl) →
      q <+: replaceAllF pat repl f s → q <+: s := by
  intro f
  induction f with
  | zero => intro s q _ h; cases s <;> simpa [replaceAllF] using h
  | succ f ih =>
    intro s q hq h
    cases s with
    | nil => simpa [replaceAllF] using h
    | cons c cs =>
      simp only [replaceAllF] at h
      split at h
      · cases q with
        | nil => exact List.nil_prefix
        | cons x q' =>
          exfalso
          have hx : x ∈ repl := by
            cases repl with
            | nil => exact absurd rfl hrepl
            | cons r rs =>
              rw [List.cons_append, List.cons_prefix_cons] at h
              rw [h.1]
              exact List.mem_cons_self r rs
          exact hq x (List.mem_cons_self _ _) hx
      · cases q with
        | nil => exact List.nil_prefix
        | cons x q' =>
          rw [List.cons_prefix_cons] at h
          obtain ⟨rfl, h'⟩ := h
          exact List.cons_prefix_cons.mpr
            ⟨rfl, ih cs q' (fun ch hch => hq ch (List.mem_cons_of_mem _ hch)) h'⟩

theorem infix_replaceAllF (pat repl : List Char) (hrepl : repl ≠ []) :
    ∀ (f : Nat) (s q : List Char), q ≠ [] → (∀ ch ∈ q, ch ∉ repl) →
      q <:+: replaceAllF pat repl f s → q <:+: s := by
  intro f
  induction f with
  | zero => intro s q _ _ h; cases s <;> simpa [replaceAllF] using h
  | succ f ih =>
    intro s q hqne hq h
    cases s with
    | nil => simpa [replaceAllF] using h
    | cons c cs =>
      simp only [replaceAllF] at h
      split at h
      · rcases infix_append_cases h with h' | h' | ⟨a, b, hab, ha, _, hsuf, _⟩
        · exfalso
          cases q with
          | nil => exact hqne rfl
          | cons x q' =>
            exact hq x (List.mem_cons_self _ _) (h'.subset (List.mem_cons_self _ _))
        · exact infix_of_drop (ih _ _ hqne hq h')
        · exfalso
          cases a with
          | nil => exact ha rfl
          | cons a0 as =>
            have ha0q : a0 ∈ q := by
              rw [hab]
              exact List.mem_append.mpr (Or.inl (List.mem_cons_self _ _))
            exact hq a0 ha0q (hsuf.subset (List.mem_cons_self _ _))
      · rcases List.infix_cons_iff.mp h with h' | h'
        · cases q with
          | nil => exact absurd rfl hqne
          | cons x q' =>
            rw [List.cons_prefix_cons] at h'
            obtain ⟨rfl, h''⟩ := h'
            exact (List.cons_prefix_cons.mpr
              ⟨rfl, prefix_replaceAllF pat repl hrepl f cs q'
                (fun ch hch => hq ch (List.mem_cons_of_mem _ hch)) h''⟩).isInfix
        · exact List.infix_cons_iff.mpr (Or.inr (ih _ _ hqne hq h'))

theorem not_pat_infix_replaceAllF (pat repl : List Char) (hpat : pat ≠ [])
    (hrepl : repl ≠ []) (hdisj : ∀ ch ∈ repl, ch ∉ pat) :
    ∀ (f : Nat) (s : List Char), s.length ≤ f →
      ¬ pat <:+: replaceAllF pat repl f s := by
  intro f
  induction f with
  | zero =>
    intro s hs h
    rw [List.length_eq_zero.mp (Nat.le_zero.mp hs)] at h
    simp only [replaceAllF] at h
    rw [List.infix_nil] at h
    exact hpat h
  | succ f ih =>
    intro s hs h
    cases s with
    | nil =>
      simp only [replaceAllF] at h
      rw [List.infix_nil] at h
      exact hpat h
    | cons c cs =>
      simp only [replaceAllF] at h
      revert h
      split
      · intro h
        rcases infix_append_cases h with h' | h' | ⟨a, b, hab, ha, _, hsuf, _⟩
        · cases pat with
          | nil => exact hpat rfl
          | cons p0 ps =>
            exact hdisj p0 (h'.subset (List.mem_cons_self _ _)) (List.mem_cons_self _ _)
        · refine ih _ ?_ h'
          rw [List.length_drop]
          have hp1 : 1 ≤ pat.length := List.length_pos.mpr hpat
          simp only [List.length_cons] at hs ⊢
          omega
        · cases a with
          | nil => exact ha rfl
          | cons a0 as =>
            have ha0p : a0 ∈ pat := by
              rw [hab]
              exact List.mem_append.mpr (Or.inl (List.mem_cons_self _ _))
            exact hdisj a0 (hsuf.subset (List.mem_cons_self _ _)) ha0p
      · intro h
        rename_i hnc
        rcases List.infix_cons_iff.mp h with h' | h'
        · cases pat with
          | nil => exact hpat rfl
          | cons p0 ps =>
            rw [List.cons_prefix_cons] at h'
            obtain ⟨rfl, h''⟩ := h'
            have hps : ps <+: cs :=
              prefix_replaceAllF (p0 :: ps) repl hrepl f cs ps
                (fun ch hch => fun hr =>
                  hdisj ch hr (List.mem_cons_of_mem _ hch)) h''
            exact hnc ⟨hpat, List.isPrefixOf_iff_prefix.mpr
              (List.cons_prefix_cons.mpr ⟨rfl, hps⟩)⟩
        · exact ih cs (by simpa using Nat.le_of_succ_le_succ (by simpa using hs)) h'

/-! ## Lemmas about the remaining `latexToSimple` scanners -/

theorem dollar_not_mem_replaceAllF :
    ∀ (f : Nat) (s : List Char), s.length ≤ f →
      '$' ∉ replaceAllF [ '$' ] [] f s := by
  intro f
  induction f with
  | zero =>
    intro s hs
    rw [List.length_eq_zero.mp (Nat.le_zero.mp hs)]
    simp [replaceAllF]
  | succ f ih =>
    intro s hs
    cases s with
    | nil => simp [replaceAllF]
    | cons c cs =>
      simp only [replaceAllF]
      by_cases hc : c = '$'
      · rw [if_pos ⟨by simp, by simp [hc, List.isPrefixOf]⟩]
        subst hc
        simp only [List.nil_append, List.drop_succ_cons, List.drop_zero]
        exact ih cs (by simpa using Nat.le_of_succ_le_succ hs)
      · rw [if_neg]
        · intro hmem
          rcases List.mem_cons.mp hmem with h | h
          · exact hc h.symm
          · exact ih cs (by simpa using Nat.le_of_succ_le_succ hs) h
        · intro hcond
          have := List.isPrefixOf_iff_prefix.mp hcond.2
          rw [List.cons_prefix_cons] at this
          exact hc this.1.symm

theorem tagSingleF_eq (tag : Char) : ∀ (f : Nat) (s : List Char), tagSingleF tag f s = s := by
  intro f
  induction f with
  | zero => intro s; cases s <;> rfl
  | succ f ih =>
    intro s
    cases s with
    | nil => rfl
    | cons c cs =>
      cases cs with
      | nil => rfl
      | cons d ds =>
        simp only [tagSingleF]
        split
        · rw [ih]
        · rw [ih]

theorem tagSingle_eq (tag : Char) (s : List Char) : tagSingle tag s = s :=
  tagSingleF_eq tag s.length s

theorem dollarRewrapF_eq : ∀ (f : Nat) (s : List Char), dollarRewrapF f s = s := by
  intro f
  induction f with
  | zero => intro s; cases s <;> rfl
  | succ f ih =>
    intro s
    cases s with
    | nil => rfl
    | cons c cs =>
      simp only [dollarRewrapF]
      split
      · rename_i hcond
        rw [ih]
        obtain ⟨t, ht⟩ : ∃ t, cs.dropWhile (· ≠ '$') = '$' :: t := by
          cases hd : cs.dropWhile (· ≠ '$') with
          | nil => exact absurd hd hcond.2.2
          | cons x t =>
            have hx : x = '$' := by
              have := dropWhile_head_false hd
              simpa using this
            exact ⟨t, by rw [← hx]⟩
        rw [ht]
        simp only [List.drop_succ_cons, List.drop_zero]
        rw [hcond.1]
        show '$' :: (cs.takeWhile (· ≠ '$') ++ '$' :: t) = '$' :: cs
        congr 1
        rw [← ht]
        exact List.takeWhile_append_dropWhile _ _
      · rw [ih]

theorem dollarRewrap_eq (s : List Char) : dollarRewrap s = s :=
  dollarRewrapF_eq s.length s

theorem braceCollapseF_eq_of_not_mem (pre keep : List Char) :
    ∀ (f : Nat) (s : List Char), '\x7b' ∉ s → braceCollapseF pre keep f s = s := by
  intro f
  induction f with
  | zero => intro s _; cases s <;> rfl
  | succ f ih =>
    intro s hs
    cases s with
    | nil => rfl
    | cons c cs =>
      simp only [braceCollapseF]
      rw [if_neg, ih cs (fun h => hs (List.mem_cons_of_mem _ h))]
      intro hcond
      have := (List.isPrefixOf_iff_prefix.mp hcond.1).subset
      exact hs (this (List.mem_append.mpr (Or.inr (List.mem_cons_self _ _))))

theorem braceCollapse_eq_of_not_mem (pre keep s : List Char) (h : '\x7b' ∉ s) :
    braceCollapse pre keep s = s :=
  braceCollapseF_eq_of_not_mem pre keep s.length s h

/-! ## Whitespace normalization lemmas -/

/-- Normalized whitespace: every whitespace character is a plain space and no
two whitespace characters are adjacent.  This is the shape `collapseWs`
produces. -/
def wsn : List Char → Prop
  | [] => True
  | [c] => jsWs c → c = ' '
  | c :: d :: rest => (jsWs c → (c = ' ' ∧ jsWs d = false)) ∧ wsn (d :: rest)

theorem wsn_tail {c : Char} {t : List Char} (h : wsn (c :: t)) : wsn t := by
  cases t with
  | nil => trivial
  | cons d rest => exact h.2

theorem wsn_append_right {xs ys : List Char} (h : wsn (xs ++ ys)) : wsn ys := by
  induction xs with
  | nil => exact h
  | cons x xs ih => exact ih (wsn_tail h)

theorem wsn_append_left {xs ys : List Char} (h : wsn (xs ++ ys)) : wsn xs := by
  induction xs with
  | nil => trivial
  | cons x xs ih =>
    cases xs with
    | nil =>
      cases ys with
      | nil => exact h
      | cons y ys' =>
        intro hx
        exact ((List.cons_append x [] (y :: ys') ▸ h).1 hx).1
    | cons x' xs' =>
      exact ⟨(h).1, ih (wsn_tail h)⟩

theorem wsn_of_suffix {xs ys : List Char} (h : xs <:+ ys) (hw : wsn ys) : wsn xs := by
  obtain ⟨t, rfl⟩ := h
  exact wsn_append_right hw

theorem wsn_of_front {xs ys : List Char} (h : xs <+: ys) (hw : wsn ys) : wsn xs := by
  obtain ⟨t, rfl⟩ := h
  exact wsn_append_left hw

theorem collapseWsF_nil (f : Nat) : collapseWsF f ([] : List Char) = [] := by
  cases f <;> rfl

theorem length_collapseWsF : ∀ (f : Nat) (s : List Char),
    (collapseWsF f s).length ≤ s.length := by
  intro f
  induction f with
  | zero => intro s; cases s <;> simp [collapseWsF]
  | succ f ih =>
    intro s
    cases s with
    | nil => simp [collapseWsF]
    | cons c cs =>
      simp only [collapseWsF]
      split
      · have h1 := ih (cs.dropWhile jsWs)
        have h2 : (cs.dropWhile jsWs).length ≤ cs.length :=
          (List.dropWhile_suffix jsWs).sublist.length_le
        simp only [List.length_cons]
        omega
      · have h1 := ih cs
        simp only [List.length_cons]
        omega

theorem collapseWsF_cons_not_ws (f : Nat) (d : Char) (ds : List Char) (h : jsWs d = false) :
    ∃ r, collapseWsF f (d :: ds) = d :: r := by
  cases f with
  | zero => exact ⟨ds, rfl⟩
  | succ f =>
    refine ⟨collapseWsF f ds, ?_⟩
    simp only [collapseWsF]
    rw [if_neg]
    simp [h]

theorem wsn_collapseWsF : ∀ (f : Nat) (s : List Char), s.length ≤ f →
    wsn (collapseWsF f s) := by
  intro f
  induction f with
  | zero =>
    intro s hs
    rw [List.length_eq_zero.mp (Nat.le_zero.mp hs)]
    trivial
  | succ f ih =>
    intro s hs
    cases s with
    | nil => trivial
    | cons c cs =>
      simp only [collapseWsF]
      split
      · have hlen : (cs.dropWhile jsWs).length ≤ f := by
          have := (List.dropWhile_suffix (l := cs) jsWs).sublist.length_le
          simp only [List.length_cons] at hs
          omega
        have hR := ih (cs.dropWhile jsWs) hlen
        cases ht : cs.dropWhile jsWs with
        | nil =>
          rw [collapseWsF_nil]
          intro
          rfl
        | cons d ds =>
          have hd : jsWs d = false := dropWhile_head_false ht
          obtain ⟨r, hr⟩ := collapseWsF_cons_not_ws f d ds hd
          rw [hr]
          rw [ht, hr] at hR
          exact ⟨fun _ => ⟨rfl, hd⟩, hR⟩
      · have hlen : cs.length ≤ f := by
          simp only [List.length_cons] at hs
          omega
        have hR := ih cs hlen
        rename_i hc
        cases hf : collapseWsF f cs with
        | nil =>
          intro hws
          simp [hws] at hc
        | cons e r =>
          refine ⟨fun hws => absurd hws (by simp_all), ?_⟩
          rw [← hf]
          exact hR

theorem collapseWsF_of_wsn : ∀ (f : Nat) (s : List Char), s.length ≤ f → wsn s →
    collapseWsF f s = s := by
  intro f
  induction f with
  | zero =>
    intro s hs _
    rw [List.length_eq_zero.mp (Nat.le_zero.mp hs)]
    rfl
  | succ f ih =>
    intro s hs hw
    cases s with
    | nil => rfl
    | cons c cs =>
      simp only [collapseWsF]
      split
      · rename_i hc
        cases cs with
        | nil =>
          have : c = ' ' := hw hc
          simp [this, List.dropWhile, collapseWsF]
        | cons d ds =>
          have hcd := hw.1 hc
          have hdrop : (d :: ds).dropWhile jsWs = d :: ds := by
            rw [List.dropWhile_cons, if_neg (by simp [hcd.2])]
          rw [hdrop, hcd.1, ih (d :: ds) (by simp only [List.length_cons] at hs ⊢; omega) hw.2]
      · rw [ih cs (by simp only [List.length_cons] at hs; omega) (wsn_tail hw)]

theorem jsTrim_eq (s : List Char) :
    jsTrim s = List.dropWhile jsWs (List.rdropWhile jsWs s) := rfl

theorem wsn_jsTrim {s : List Char} (h : wsn s) : wsn (jsTrim s) := by
  rw [jsTrim_eq]
  exact wsn_of_suffix (List.dropWhile_suffix jsWs)
    (wsn_of_front (List.rdropWhile_prefix jsWs s) h)

theorem rdropWhile_dropWhile_rdropWhile (s : List Char) :
    List.rdropWhile jsWs (List.dropWhile jsWs (List.rdropWhile jsWs s))
      = List.dropWhile jsWs (List.rdropWhile jsWs s) := by
  rw [List.rdropWhile_eq_self_iff]
  intro hv
  obtain ⟨t, htv⟩ := List.dropWhile_suffix (l := List.rdropWhile jsWs s) jsWs
  have hrne : List.rdropWhile jsWs s ≠ [] := by
    rw [← htv]
    exact List.append_ne_nil_of_right_ne_nil t hv
  have h1 : (List.rdropWhile jsWs s).getLast?
      = (List.dropWhile jsWs (List.rdropWhile jsWs s)).getLast? := by
    conv_lhs => rw [← htv]
    exact List.getLast?_append_of_ne_nil t hv
  have heq : (List.rdropWhile jsWs s).getLast hrne
      = (List.dropWhile jsWs (List.rdropWhile jsWs s)).getLast hv := by
    have h2 := List.getLast?_eq_getLast (List.rdropWhile jsWs s) hrne
    have h3 := List.getLast?_eq_getLast
      (List.dropWhile jsWs (List.rdropWhile jsWs s)) hv
    exact Option.some.inj (h2.symm.trans (h1.trans h3))
  have := List.rdropWhile_last_not jsWs s hrne
  rw [heq] at this
  simpa using this

theorem jsTrim_idempotent (s : List Char) : jsTrim (jsTrim s) = jsTrim s := by
  rw [jsTrim_eq, jsTrim_eq, rdropWhile_dropWhile_rdropWhile,
    List.dropWhile_idempotent]

theorem jsTrim_collapseWs_idem (z : List Char) :
    jsTrim (collapseWs (jsTrim (collapseWs z))) = jsTrim (collapseWs z) := by
  have hu : wsn (collapseWs z) := wsn_collapseWsF z.length z le_rfl
  have hy : wsn (jsTrim (collapseWs z)) := wsn_jsTrim hu
  have hcoll : collapseWs (jsTrim (collapseWs z)) = jsTrim (collapseWs z) :=
    collapseWsF_of_wsn _ _ le_rfl hy
  rw [hcoll, jsTrim_idempotent]

theorem jsTrim_infix_self (s : List Char) : jsTrim s <:+: s := by
  rw [jsTrim_eq]
  exact (List.dropWhile_suffix jsWs).isInfix.trans
    (List.rdropWhile_prefix jsWs s).isInfix

theorem prefix_collapseWsF : ∀ (f : Nat) (s q : List Char),
    (∀ ch ∈ q, jsWs ch = false) → q <+: collapseWsF f s → q <+: s := by
  intro f
  induction f with
  | zero => intro s q _ h; cases s <;> simpa [collapseWsF] using h
  | succ f ih =>
    intro s q hq h
    cases s with
    | nil => simpa [collapseWsF] using h
    | cons c cs =>
      simp only [collapseWsF] at h
      split at h
      · cases q with
        | nil => exact List.nil_prefix
        | cons x q' =>
          rw [List.cons_prefix_cons] at h
          exfalso
          have := hq x (List.mem_cons_self _ _)
          rw [h.1] at this
          simp [jsWs] at this
      · cases q with
        | nil => exact List.nil_prefix
        | cons x q' =>
          rw [List.cons_prefix_cons] at h
          obtain ⟨rfl, h'⟩ := h
          exact List.cons_prefix_cons.mpr
            ⟨rfl, ih cs q' (fun ch hch => hq ch (List.mem_cons_of_mem _ hch)) h'⟩

theorem infix_collapseWsF : ∀ (f : Nat) (s q : List Char), q ≠ [] →
    (∀ ch ∈ q, jsWs ch = false) → q <:+: collapseWsF f s → q <:+: s := by
  intro f
  induction f with
  | zero => intro s q _ _ h; cases s <;> simpa [collapseWsF] using h
  | succ f ih =>
    intro s q hqne hq h
    cases s with
    | nil => simpa [collapseWsF] using h
    | cons c cs =>
      simp only [collapseWsF] at h
      split at h
      · rcases List.infix_cons_iff.mp h with h' | h'
        · exfalso
          cases q with
          | nil => exact hqne rfl
          | cons x q' =>
            rw [List.cons_prefix_cons] at h'
            have := hq x (List.mem_cons_self _ _)
            rw [h'.1] at this
            simp [jsWs] at this
        · have h'' := ih _ _ hqne hq h'
          exact List.infix_cons_iff.mpr (Or.inr
            (infix_of_infix_suffix h'' (List.dropWhile_suffix jsWs)))
      · rcases List.infix_cons_iff.mp h with h' | h'
        · cases q with
          | nil => exact absurd rfl hqne
          | cons x q' =>
            rw [List.cons_prefix_cons] at h'
            obtain ⟨rfl, h''⟩ := h'
            exact (List.cons_prefix_cons.mpr
              ⟨rfl, prefix_collapseWsF f cs q'
                (fun ch hch => hq ch (List.mem_cons_of_mem _ hch)) h''⟩).isInfix
        · exact List.infix_cons_iff.mpr (Or.inr (ih _ _ hqne hq h'))

theorem mem_collapseWsF : ∀ (f : Nat) (s : List Char) (c : Char),
    c ∈ collapseWsF f s → c ∈ s ∨ c = ' ' := by
  intro f
  induction f with
  | zero => intro s c h; cases s <;> simp_all [collapseWsF]
  | succ f ih =>
    intro s c h
    cases s with
    | nil => simp [collapseWsF] at h
    | cons x cs =>
      simp only [collapseWsF] at h
      split at h
      · rcases List.mem_cons.mp h with rfl | h'
        · exact Or.inr rfl
        · rcases ih _ _ h' with h'' | h''
          · exact Or.inl (List.mem_cons_of_mem _
              ((List.dropWhile_suffix jsWs).subset h''))
          · exact Or.inr h''
      · rcases List.mem_cons.mp h with rfl | h'
        · exact Or.inl (List.mem_cons_self _ _)
        · rcases ih _ _ h' with h'' | h''
          · exact Or.inl (List.mem_cons_of_mem _ h'')
          · exact Or.inr h''

/-! ## Wrapper-level absence lemmas -/

theorem replaceAll_id (pat repl s : List Char) (h : ¬ pat <:+: s) :
    replaceAll pat repl s = s :=
  replaceAllF_eq_of_not_infix pat repl s.length s h

theorem not_infix_replaceAll_self (pat repl : List Char) (hpat : pat ≠ [])
    (hrepl : repl ≠ []) (hdisj : ∀ ch ∈ repl, ch ∉ pat) (s : List Char) :
    ¬ pat <:+: replaceAll pat repl s :=
  not_pat_infix_replaceAllF pat repl hpat hrepl hdisj s.length s le_rfl

theorem not_infix_replaceAll (pat repl q s : List Char) (hrepl : repl ≠ [])
    (hq : q ≠ []) (hmem : ∀ ch ∈ q, ch ∉ repl) (h : ¬ q <:+: s) :
    ¬ q <:+: replaceAll pat repl s :=
  fun hin => h (infix_replaceAllF pat repl hrepl s.length s q hq hmem hin)

theorem not_mem_replaceAll (pat repl s : List Char) (c : Char) (h1 : c ∉ s)
    (h2 : c ∉ repl) : c ∉ replaceAll pat repl s :=
  fun hmem => ((mem_replaceAllF pat repl s.length s c hmem).elim h1 h2)

theorem not_infix_collapseWs (q s : List Char) (hq : q ≠ [])
    (hws : ∀ ch ∈ q, jsWs ch = false) (h : ¬ q <:+: s) : ¬ q <:+: collapseWs s :=
  fun hin => h (infix_collapseWsF s.length s q hq hws hin)

theorem not_infix_jsTrim (q s : List Char) (h : ¬ q <:+: s) : ¬ q <:+: jsTrim s :=
  fun hin => h (hin.trans (jsTrim_infix_self s))

theorem not_mem_collapseWs (s : List Char) (c : Char) (h1 : c ∉ s) (h2 : c ≠ ' ') :
    c ∉ collapseWs s :=
  fun hmem => ((mem_collapseWsF s.length s c hmem).elim h1 h2)

theorem not_mem_jsTrim (s : List Char) (c : Char) (h : c ∉ s) : c ∉ jsTrim s :=
  fun hmem => h ((jsTrim_infix_self s).subset hmem)

theorem dollar_not_mem_replaceAll (s : List Char) : '$' ∉ replaceAll "$".data [] s :=
  dollar_not_mem_replaceAllF s.length s le_rfl

/-- The markup simplifier is idempotent on inputs containing no opening
brace: every rule of the second pass finds nothing left to transform.
(On general inputs idempotence fails; see the counterexample.) -/
theorem simplifyChars_idem (x : List Char) (hx : '\x7b' ∉ x) :
    simplifyChars (simplifyChars x) = simplifyChars x := by
  have h0brace : '\x7b' ∉ replaceAll "$".data [] x :=
    not_mem_replaceAll _ _ _ _ hx (by decide)
  have h0dollar : '$' ∉ replaceAll "$".data [] x := dollar_not_mem_replaceAll x
  have e1 : braceCollapse "\\text".data [] (replaceAll "$".data [] x) = replaceAll "$".data [] x :=
    braceCollapse_eq_of_not_mem _ _ _ h0brace
  have e2 : braceCollapse "\\mathrm".data [] (replaceAll "$".data [] x) = replaceAll "$".data [] x :=
    braceCollapse_eq_of_not_mem _ _ _ h0brace
  have e3 : braceCollapse "^".data "^".data (replaceAll "$".data [] x) = replaceAll "$".data [] x :=
    braceCollapse_eq_of_not_mem _ _ _ h0brace
  have e4 : braceCollapse "_".data "_".data (replaceAll "$".data [] x) = replaceAll "$".data [] x :=
    braceCollapse_eq_of_not_mem _ _ _ h0brace
  have a_comma_0 : ¬ "\\,".data <:+: (replaceAll "\\,".data " ".data (replaceAll "$".data [] x)) :=
    not_infix_replaceAll_self _ _ (by decide) (by decide) (by decide) _
  have a_comma_1 : ¬ "\\,".data <:+: (replaceAll "\\;".data " ".data (replaceAll "\\,".data " ".data (replaceAll "$".data [] x))) :=
    not_infix_replaceAll "\\;".data " ".data _ _ (by decide) (by decide) (by decide) a_comma_0
  have a_comma_2 : ¬ "\\,".data <:+: (replaceAll "\\:".data " ".data (replaceAll "\\;".data " ".data (replaceAll "\\,".data " ".data (replaceAll "$".data [] x)))) :=
    not_infix_replaceAll "\\:".data " ".data _ _ (by decide) (by decide) (by decide) a_comma_1
  have a_comma_3 : ¬ "\\,".data <:+: (replaceAll "\\times".data "×".data (replaceAll "\\:".data " ".data (replaceAll "\\;".data " ".data (replaceAll "\\,".data " ".data (replaceAll "$".data [] x))))) :=
    not_infix_replaceAll "\\times".data "×".data _ _ (by decide) (by decide) (by decide) a_comma_2
  have a_comma_4 : ¬ "\\,".data <:+: (replaceAll "\\mu".data "μ".data (replaceAll "\\times".data "×".data (replaceAll "\\:".data " ".data (replaceAll "\\;".data " ".data (replaceAll "\\,".data " ".data (replaceAll "$".data [] x)))))) :=
    not_infix_replaceAll "\\mu".data "μ".data _ _ (by decide) (by decide) (by decide) a_comma_3
  have a_comma_5 : ¬ "\\,".data <:+: (replaceAll "\\circ".data "°".data (replaceAll "\\mu".data "μ".data (replaceAll "\\times".data "×".data (replaceAll "\\:".data " ".data (replaceAll "\\;".data " ".data (replaceAll "\\,".data " ".data (replaceAll "$".data [] x))))))) :=
    not_infix_replaceAll "\\circ".data "°".data _ _ (by decide) (by decide) (by decide) a_comma_4
  have a_comma_6 : ¬ "\\,".data <:+: (replaceAll "\\pi".data "π".data (replaceAll "\\circ".data "°".data (replaceAll "\\mu".data "μ".data (replaceAll "\\times".data "×".data (replaceAll "\\:".data " ".data (replaceAll "\\;".data " ".data (replaceAll "\\,".data " ".data (replaceAll "$".data [] x)))))))) :=
    not_infix_replaceAll "\\pi".data "π".data _ _ (by decide) (by decide) (by decide) a_comma_5
  have a_comma_7 : ¬ "\\,".data <:+: (replaceAll "\\theta".data "θ".data (replaceAll "\\pi".data "π".data (replaceAll "\\circ".data "°".data (replaceAll "\\mu".data "μ".data (replaceAll "\\times".data "×".data (replaceAll "\\:".data " ".data (replaceAll "\\;".data " ".data (replaceAll "\\,".data " ".data (replaceAll "$".data [] x))))))))) :=
    not_infix_replaceAll "\\theta".data "θ".data _ _ (by decide) (by decide) (by decide) a_comma_6
  have a_comma_8 : ¬ "\\,".data <:+: (replaceAll "\\Delta".data "Δ".data (replaceAll "\\theta".data "θ".data (replaceAll "\\pi".data "π".data (replaceAll "\\circ".data "°".data (replaceAll "\\mu".data "μ".data (replaceAll "\\times".data "×".data (replaceAll "\\:".data " ".data (replaceAll "\\;".data " ".data (replaceAll "\\,".data " ".data (replaceAll "$".data [] x)))))))))) :=
    not_infix_replaceAll "\\Delta".data "Δ".data _ _ (by decide) (by decide) (by decide) a_comma_7
  have a_comma_9 : ¬ "\\,".data <:+: (replaceAll "\\Omega".data "Ω".data (replaceAll "\\Delta".data "Δ".data (replaceAll "\\theta".data "θ".data (replaceAll "\\pi".data "π".data (replaceAll "\\circ".data "°".data (replaceAll "\\mu".data "μ".data (replaceAll "\\times".data "×".data (replaceAll "\\:".data " ".data (replaceAll "\\;".data " ".data (replaceAll "\\,".data " ".data (replaceAll "$".data [] x))))))))))) :=
    not_infix_replaceAll "\\Omega".data "Ω".data _ _ (by decide) (by decide) (by decide) a_comma_8
  have a_comma_c : ¬ "\\,".data <:+: collapseWs (replaceAll "\\Omega".data "Ω".data (replaceAll "\\Delta".data "Δ".data (replaceAll "\\theta".data "θ".data (replaceAll "\\pi".data "π".data (replaceAll "\\circ".data "°".data (replaceAll "\\mu".data "μ".data (replaceAll "\\times".data "×".data (replaceAll "\\:".data " ".data (replaceAll "\\;".data " ".data (replaceAll "\\,".data " ".data (replaceAll "$".data [] x))))))))))) :=
    not_infix_collapseWs _ _ (by decide) (by decide) a_comma_9
  have a_comma_y : ¬ "\\,".data <:+: (jsTrim (collapseWs (replaceAll "\\Omega".data "Ω".data (replaceAll "\\Delta".data "Δ".data (replaceAll "\\theta".data "θ".data (replaceAll "\\pi".data "π".data (replaceAll "\\circ".data "°".data (replaceAll "\\mu".data "μ".data (replaceAll "\\times".data "×".data (replaceAll "\\:".data " ".data (replaceAll "\\;".data " ".data (replaceAll "\\,".data " ".data (replaceAll "$".data [] x))))))))))))) :=
    not_infix_jsTrim _ _ a_comma_c
  have a_semi_1 : ¬ "\\;".data <:+: (replaceAll "\\;".data " ".data (replaceAll "\\,".data " ".data (replaceAll "$".data [] x))) :=
    not_infix_replaceAll_self _ _ (by decide) (by decide) (by decide) _
  have a_semi_2 : ¬ "\\;".data <:+: (replaceAll "\\:".data " ".data (replaceAll "\\;".data " ".data (replaceAll "\\,".data " ".data (replaceAll "$".data [] x)))) :=
    not_infix_replaceAll "\\:".data " ".data _ _ (by decide) (by decide) (by decide) a_semi_1
  have a_semi_3 : ¬ "\\;".data <:+: (replaceAll "\\times".data "×".data (replaceAll "\\:".data " ".data (replaceAll "\\;".data " ".data (replaceAll "\\,".data " ".data (replaceAll "$".data [] x))))) :=
    not_infix_replaceAll "\\times".data "×".data _ _ (by decide) (by decide) (by decide) a_semi_2
  have a_semi_4 : ¬ "\\;".data <:+: (replaceAll "\\mu".data "μ".data (replaceAll "\\times".data "×".data (replaceAll "\\:".data " ".data (replaceAll "\\;".data " ".data (replaceAll "\\,".data " ".data (replaceAll "$".data [] x)))))) :=
    not_infix_replaceAll "\\mu".data "μ".data _ _ (by decide) (by decide) (by decide) a_semi_3
  have a_semi_5 : ¬ "\\;".data <:+: (replaceAll "\\circ".data "°".data (replaceAll "\\mu".data "μ".data (replaceAll "\\times".data "×".data (replaceAll "\\:".data " ".data (replaceAll "\\;".data " ".data (replaceAll "\\,".data " ".data (replaceAll "$".data [] x))))))) :=
    not_infix_replaceAll "\\circ".data "°".data _ _ (by decide) (by decide) (by decide) a_semi_4
  have a_semi_6 : ¬ "\\;".data <:+: (replaceAll "\\pi".data "π".data (replaceAll "\\circ".data "°".data (replaceAll "\\mu".data "μ".data (replaceAll "\\times".data "×".data (replaceAll "\\:".data " ".data (replaceAll "\\;".data " ".data (replaceAll "\\,".data " ".data (replaceAll "$".data [] x)))))))) :=
    not_infix_replaceAll "\\pi".data "π".data _ _ (by decide) (by decide) (by decide) a_semi_5
  have a_semi_7 : ¬ "\\;".data <:+: (replaceAll "\\theta".data "θ".data (replaceAll "\\pi".data "π".data (replaceAll "\\circ".data "°".data (replaceAll "\\mu".data "μ".data (replaceAll "\\times".data "×".data (replaceAll "\\:".data " ".data (replaceAll "\\;".data " ".data (replaceAll "\\,".data " ".data (replaceAll "$".data [] x))))))))) :=
    not_infix_replaceAll "\\theta".data "θ".data _ _ (by decide) (by decide) (by decide) a_semi_6
  have a_semi_8 : ¬ "\\;".data <:+: (replaceAll "\\Delta".data "Δ".data (replaceAll "\\theta".data "θ".data (replaceAll "\\pi".data "π".data (replaceAll "\\circ".data "°".data (replaceAll "\\mu".data "μ".data (replaceAll "\\times".data "×".data (replaceAll "\\:".data " ".data (replaceAll "\\;".data " ".data (replaceAll "\\,".data " ".data (replaceAll "$".data [] x)))))))))) :=
    not_infix_replaceAll "\\Delta".data "Δ".data _ _ (by decide) (by decide) (by decide) a_semi_7
  have a_semi_9 : ¬ "\\;".data <:+: (replaceAll "\\Omega".data "Ω".data (replaceAll "\\Delta".data "Δ".data (replaceAll "\\theta".data "θ".data (replaceAll "\\pi".data "π".data (replaceAll "\\circ".data "°".data (replaceAll "\\mu".data "μ".data (replaceAll "\\times".data "×".data (replaceAll "\\:".data " ".data (replaceAll "\\;".data " ".data (replaceAll "\\,".data " ".data (replaceAll "$".data [] x))))))))))) :=
    not_infix_replaceAll "\\Omega".data "Ω".data _ _ (by decide) (by decide) (by decide) a_semi_8
  have a_semi_c : ¬ "\\;".data <:+: collapseWs (replaceAll "\\Omega".data "Ω".data (replaceAll "\\Delta".data "Δ".data (replaceAll "\\theta".data "θ".data (replaceAll "\\pi".data "π".data (replaceAll "\\circ".data "°".data (replaceAll "\\mu".data "μ".data (replaceAll "\\times".data "×".data (replaceAll "\\:".data " ".data (replaceAll "\\;".data " ".data (replaceAll "\\,".data " ".data (replaceAll "$".data [] x))))))))))) :=
    not_infix_collapseWs _ _ (by decide) (by decide) a_semi_9
  have a_semi_y : ¬ "\\;".data <:+: (jsTrim (collapseWs (replaceAll "\\Omega".data "Ω".data (replaceAll "\\Delta".data "Δ".data (replaceAll "\\theta".data "θ".data (replaceAll "\\pi".data "π".data (replaceAll "\\circ".data "°".data (replaceAll "\\mu".data "μ".data (replaceAll "\\times".data "×".data (replaceAll "\\:".data " ".data (replaceAll "\\;".data " ".data (replaceAll "\\,".data " ".data (replaceAll "$".data [] x))))))))))))) :=
    not_infix_jsTrim _ _ a_semi_c
  have a_colon_2 : ¬ "\\:".data <:+: (replaceAll "\\:".data " ".data (replaceAll "\\;".data " ".data (replaceAll "\\,".data " ".data (replaceAll "$".data [] x)))) :=
    not_infix_replaceAll_self _ _ (by decide) (by decide) (by decide) _
  have a_colon_3 : ¬ "\\:".data <:+: (replaceAll "\\times".data "×".data (replaceAll "\\:".data " ".data (replaceAll "\\;".data " ".data (replaceAll "\\,".data " ".data (replaceAll "$".data [] x))))) :=
    not_infix_replaceAll "\\times".data "×".data _ _ (by decide) (by decide) (by decide) a_colon_2
  have a_colon_4 : ¬ "\\:".data <:+: (replaceAll "\\mu".data "μ".data (replaceAll "\\times".data "×".data (replaceAll "\\:".data " ".data (replaceAll "\\;".data " ".data (replaceAll "\\,".data " ".data (replaceAll "$".data [] x)))))) :=
    not_infix_replaceAll "\\mu".data "μ".data _ _ (by decide) (by decide) (by decide) a_colon_3
  have a_colon_5 : ¬ "\\:".data <:+: (replaceAll "\\circ".data "°".data (replaceAll "\\mu".data "μ".data (replaceAll "\\times".data "×".data (replaceAll "\\:".data " ".data (replaceAll "\\;".data " ".data (replaceAll "\\,".data " ".data (replaceAll "$".data [] x))))))) :=
    not_infix_replaceAll "\\circ".data "°".data _ _ (by decide) (by decide) (by decide) a_colon_4
  have a_colon_6 : ¬ "\\:".data <:+: (replaceAll "\\pi".data "π".data (replaceAll "\\circ".data "°".data (replaceAll "\\mu".data "μ".data (replaceAll "\\times".data "×".data (replaceAll "\\:".data " ".data (replaceAll "\\;".data " ".data (replaceAll "\\,".data " ".data (replaceAll "$".data [] x)))))))) :=
    not_infix_replaceAll "\\pi".data "π".data _ _ (by decide) (by decide) (by decide) a_colon_5
  have a_colon_7 : ¬ "\\:".data <:+: (replaceAll "\\theta".data "θ".data (replaceAll "\\pi".data "π".data (replaceAll "\\circ".data "°".data (replaceAll "\\mu".data "μ".data (replaceAll "\\times".data "×".data (replaceAll "\\:".data " ".data (replaceAll "\\;".data " ".data (replaceAll "\\,".data " ".data (replaceAll "$".data [] x))))))))) :=
    not_infix_replaceAll "\\theta".data "θ".data _ _ (by decide) (by decide) (by decide) a_colon_6
  have a_colon_8 : ¬ "\\:".data <:+: (replaceAll "\\Delta".data "Δ".data (replaceAll "\\theta".data "θ".data (replaceAll "\\pi".data "π".data (replaceAll "\\circ".data "°".data (replaceAll "\\mu".data "μ".data (replaceAll "\\times".data "×".data (replaceAll "\\:".data " ".data (replaceAll "\\;".data " ".data (replaceAll "\\,".data " ".data (replaceAll "$".data [] x)))))))))) :=
    not_infix_replaceAll "\\Delta".data "Δ".data _ _ (by decide) (by decide) (by decide) a_colon_7
  have a_colon_9 : ¬ "\\:".data <:+: (replaceAll "\\Omega".data "Ω".data (replaceAll "\\Delta".data "Δ".data (replaceAll "\\theta".data "θ".data (replaceAll "\\pi".data "π".data (replaceAll "\\circ".data "°".data (replaceAll "\\mu".data "μ".data (replaceAll "\\times".data "×".data (replaceAll "\\:".data " ".data (replaceAll "\\;".data " ".data (replaceAll "\\,".data " ".data (replaceAll "$".data [] x))))))))))) :=
    not_infix_replaceAll "\\Omega".data "Ω".data _ _ (by decide) (by decide) (by decide) a_colon_8
  have a_colon_c : ¬ "\\:".data <:+: collapseWs (replaceAll "\\Omega".data "Ω".data (replaceAll "\\Delta".data "Δ".data (replaceAll "\\theta".data "θ".data (replaceAll "\\pi".data "π".data (replaceAll "\\circ".data "°".data (replaceAll "\\mu".data "μ".data (replaceAll "\\times".data "×".data (replaceAll "\\:".data " ".data (replaceAll "\\;".data " ".data (replaceAll "\\,".data " ".data (replaceAll "$".data [] x))))))))))) :=
    not_infix_collapseWs _ _ (by decide) (by decide) a_colon_9
  have a_colon_y : ¬ "\\:".data <:+: (jsTrim (collapseWs (replaceAll "\\Omega".data "Ω".data (replaceAll "\\Delta".data "Δ".data (replaceAll "\\theta".data "θ".data (replaceAll "\\pi".data "π".data (replaceAll "\\circ".data "°".data (replaceAll "\\mu".data "μ".data (replaceAll "\\times".data "×".data (replaceAll "\\:".data " ".data (replaceAll "\\;".data " ".data (replaceAll "\\,".data " ".data (replaceAll "$".data [] x))))))))))))) :=
    not_infix_jsTrim _ _ a_colon_c
  have a_times_3 : ¬ "\\times".data <:+: (replaceAll "\\times".data "×".data (replaceAll "\\:".data " ".data (replaceAll "\\;".data " ".data (replaceAll "\\,".data " ".data (replaceAll "$".data [] x))))) :=
    not_infix_replaceAll_self _ _ (by decide) (by decide) (by decide) _
  have a_times_4 : ¬ "\\times".data <:+: (replaceAll "\\mu".data "μ".data (replaceAll "\\times".data "×".data (replaceAll "\\:".data " ".data (replaceAll "\\;".data " ".data (replaceAll "\\,".data " ".data (replaceAll "$".data [] x)))))) :=
    not_infix_replaceAll "\\mu".data "μ".data _ _ (by decide) (by decide) (by decide) a_times_3
  have a_times_5 : ¬ "\\times".data <:+: (replaceAll "\\circ".data "°".data (replaceAll "\\mu".data "μ".data (replaceAll "\\times".data "×".data (replaceAll "\\:".data " ".data (replaceAll "\\;".data " ".data (replaceAll "\\,".data " ".data (replaceAll "$".data [] x))))))) :=
    not_infix_replaceAll "\\circ".data "°".data _ _ (by decide) (by decide) (by decide) a_times_4
  have a_times_6 : ¬ "\\times".data <:+: (replaceAll "\\pi".data "π".data (replaceAll "\\circ".data "°".data (replaceAll "\\mu".data "μ".data (replaceAll "\\times".data "×".data (replaceAll "\\:".data " ".data (replaceAll "\\;".data " ".data (replaceAll "\\,".data " ".data (replaceAll "$".data [] x)))))))) :=
    not_infix_replaceAll "\\pi".data "π".data _ _ (by decide) (by decide) (by decide) a_times_5
  have a_times_7 : ¬ "\\times".data <:+: (replaceAll "\\theta".data "θ".data (replaceAll "\\pi".data "π".data (replaceAll "\\circ".data "°".data (replaceAll "\\mu".data "μ".data (replaceAll "\\times".data "×".data (replaceAll "\\:".data " ".data (replaceAll "\\;".data " ".data (replaceAll "\\,".data " ".data (replaceAll "$".data [] x))))))))) :=
    not_infix_replaceAll "\\theta".data "θ".data _ _ (by decide) (by decide) (by decide) a_times_6
  have a_times_8 : ¬ "\\times".data <:+: (replaceAll "\\Delta".data "Δ".data (replaceAll "\\theta".data "θ".data (replaceAll "\\pi".data "π".data (replaceAll "\\circ".data "°".data (replaceAll "\\mu".data "μ".data (replaceAll "\\times".data "×".data (replaceAll "\\:".data " ".data (replaceAll "\\;".data " ".data (replaceAll "\\,".data " ".data (replaceAll "$".data [] x)))))))))) :=
    not_infix_replaceAll "\\Delta".data "Δ".data _ _ (by decide) (by decide) (by decide) a_times_7
  have a_times_9 : ¬ "\\times".data <:+: (replaceAll "\\Omega".data "Ω".data (replaceAll "\\Delta".data "Δ".data (replaceAll "\\theta".data "θ".data (replaceAll "\\pi".data "π".data (replaceAll "\\circ".data "°".data (replaceAll "\\mu".data "μ".data (replaceAll "\\times".data "×".data (replaceAll "\\:".data " ".data (replaceAll "\\;".data " ".data (replaceAll "\\,".data " ".data (replaceAll "$".data [] x))))))))))) :=
    not_infix_replaceAll "\\Omega".data "Ω".data _ _ (by decide) (by decide) (by decide) a_times_8
  have a_times_c : ¬ "\\times".data <:+: collapseWs (replaceAll "\\Omega".data "Ω".data (replaceAll "\\Delta".data "Δ".data (replaceAll "\\theta".data "θ".data (replaceAll "\\pi".data "π".data (replaceAll "\\circ".data "°".data (replaceAll "\\mu".data "μ".data (replaceAll "\\times".data "×".data (replaceAll "\\:".data " ".data (replaceAll "\\;".data " ".data (replaceAll "\\,".data " ".data (replaceAll "$".data [] x))))))))))) :=
    not_infix_collapseWs _ _ (by decide) (by decide) a_times_9
  have a_times_y : ¬ "\\times".data <:+: (jsTrim (collapseWs (replaceAll "\\Omega".data "Ω".data (replaceAll "\\Delta".data "Δ".data (replaceAll "\\theta".data "θ".data (replaceAll "\\pi".data "π".data (replaceAll "\\circ".data "°".data (replaceAll "\\mu".data "μ".data (replaceAll "\\times".data "×".data (replaceAll "\\:".data " ".data (replaceAll "\\;".data " ".data (replaceAll "\\,".data " ".data (replaceAll "$".data [] x))))))))))))) :=
    not_infix_jsTrim _ _ a_times_c
  have a_mu_4 : ¬ "\\mu".data <:+: (replaceAll "\\mu".data "μ".data (replaceAll "\\times".data "×".data (replaceAll "\\:".data " ".data (replaceAll "\\;".data " ".data (replaceAll "\\,".data " ".data (replaceAll "$".data [] x)))))) :=
    not_infix_replaceAll_self _ _ (by decide) (by decide) (by decide) _
  have a_mu_5 : ¬ "\\mu".data <:+: (replaceAll "\\circ".data "°".data (replaceAll "\\mu".data "μ".data (replaceAll "\\times".data "×".data (replaceAll "\\:".data " ".data (replaceAll "\\;".data " ".data (replaceAll "\\,".data " ".data (replaceAll "$".data [] x))))))) :=
    not_infix_replaceAll "\\circ".data "°".data _ _ (by decide) (by decide) (by decide) a_mu_4
  have a_mu_6 : ¬ "\\mu".data <:+: (replaceAll "\\pi".data "π".data (replaceAll "\\circ".data "°".data (replaceAll "\\mu".data "μ".data (replaceAll "\\times".data "×".data (replaceAll "\\:".data " ".data (replaceAll "\\;".data " ".data (replaceAll "\\,".data " ".data (replaceAll "$".data [] x)))))))) :=
    not_infix_replaceAll "\\pi".data "π".data _ _ (by decide) (by decide) (by decide) a_mu_5
  have a_mu_7 : ¬ "\\mu".data <:+: (replaceAll "\\theta".data "θ".data (replaceAll "\\pi".data "π".data (replaceAll "\\circ".data "°".data (replaceAll "\\mu".data "μ".data (replaceAll "\\times".data "×".data (replaceAll "\\:".data " ".data (replaceAll "\\;".data " ".data (replaceAll "\\,".data " ".data (replaceAll "$".data [] x))))))))) :=
    not_infix_replaceAll "\\theta".data "θ".data _ _ (by decide) (by decide) (by decide) a_mu_6
  have a_mu_8 : ¬ "\\mu".data <:+: (replaceAll "\\Delta".data "Δ".data (replaceAll "\\theta".data "θ".data (replaceAll "\\pi".data "π".data (replaceAll "\\circ".data "°".data (replaceAll "\\mu".data "μ".data (replaceAll "\\times".data "×".data (replaceAll "\\:".data " ".data (replaceAll "\\;".data " ".data (replaceAll "\\,".data " ".data (replaceAll "$".data [] x)))))))))) :=
    not_infix_replaceAll "\\Delta".data "Δ".data _ _ (by decide) (by decide) (by decide) a_mu_7
  have a_mu_9 : ¬ "\\mu".data <:+: (replaceAll "\\Omega".data "Ω".data (replaceAll "\\Delta".data "Δ".data (replaceAll "\\theta".data "θ".data (replaceAll "\\pi".data "π".data (replaceAll "\\circ".data "°".data (replaceAll "\\mu".data "μ".data (replaceAll "\\times".data "×".data (replaceAll "\\:".data " ".data (replaceAll "\\;".data " ".data (replaceAll "\\,".data " ".data (replaceAll "$".data [] x))))))))))) :=
    not_infix_replaceAll "\\Omega".data "Ω".data _ _ (by decide) (by decide) (by decide) a_mu_8
  have a_mu_c : ¬ "\\mu".data <:+: collapseWs (replaceAll "\\Omega".data "Ω".data (replaceAll "\\Delta".data "Δ".data (replaceAll "\\theta".data "θ".data (replaceAll "\\pi".data "π".data (replaceAll "\\circ".data "°".data (replaceAll "\\mu".data "μ".data (replaceAll "\\times".data "×".data (replaceAll "\\:".data " ".data (replaceAll "\\;".data " ".data (replaceAll "\\,".data " ".data (replaceAll "$".data [] x))))))))))) :=
    not_infix_collapseWs _ _ (by decide) (by decide) a_mu_9
  have a_mu_y : ¬ "\\mu".data <:+: (jsTrim (collapseWs (replaceAll "\\Omega".data "Ω".data (replaceAll "\\Delta".data "Δ".data (replaceAll "\\theta".data "θ".data (replaceAll "\\pi".data "π".data (replaceAll "\\circ".data "°".data (replaceAll "\\mu".data "μ".data (replaceAll "\\times".data "×".data (replaceAll "\\:".data " ".data (replaceAll "\\;".data " ".data (replaceAll "\\,".data " ".data (replaceAll "$".data [] x))))))))))))) :=
    not_infix_jsTrim _ _ a_mu_c
  have a_circ_5 : ¬ "\\circ".data <:+: (replaceAll "\\circ".data "°".data (replaceAll "\\mu".data "μ".data (replaceAll "\\times".data "×".data (replaceAll "\\:".data " ".data (replaceAll "\\;".data " ".data (replaceAll "\\,".data " ".data (replaceAll "$".data [] x))))))) :=
    not_infix_replaceAll_self _ _ (by decide) (by decide) (by decide) _
  have a_circ_6 : ¬ "\\circ".data <:+: (replaceAll "\\pi".data "π".data (replaceAll "\\circ".data "°".data (replaceAll "\\mu".data "μ".data (replaceAll "\\times".data "×".data (replaceAll "\\:".data " ".data (replaceAll "\\;".data " ".data (replaceAll "\\,".data " ".data (replaceAll "$".data [] x)))))))) :=
    not_infix_replaceAll "\\pi".data "π".data _ _ (by decide) (by decide) (by decide) a_circ_5
  have a_circ_7 : ¬ "\\circ".data <:+: (replaceAll "\\theta".data "θ".data (replaceAll "\\pi".data "π".data (replaceAll "\\circ".data "°".data (replaceAll "\\mu".data "μ".data (replaceAll "\\times".data "×".data (replaceAll "\\:".data " ".data (replaceAll "\\;".data " ".data (replaceAll "\\,".data " ".data (replaceAll "$".data [] x))))))))) :=
    not_infix_replaceAll "\\theta".data "θ".data _ _ (by decide) (by decide) (by decide) a_circ_6
  have a_circ_8 : ¬ "\\circ".data <:+: (replaceAll "\\Delta".data "Δ".data (replaceAll "\\theta".data "θ".data (replaceAll "\\pi".data "π".data (replaceAll "\\circ".data "°".data (replaceAll "\\mu".data "μ".data (replaceAll "\\times".data "×".data (replaceAll "\\:".data " ".data (replaceAll "\\;".data " ".data (replaceAll "\\,".data " ".data (replaceAll "$".data [] x)))))))))) :=
    not_infix_replaceAll "\\Delta".data "Δ".data _ _ (by decide) (by decide) (by decide) a_circ_7
  have a_circ_9 : ¬ "\\circ".data <:+: (replaceAll "\\Omega".data "Ω".data (replaceAll "\\Delta".data "Δ".data (replaceAll "\\theta".data "θ".data (replaceAll "\\pi".data "π".data (replaceAll "\\circ".data "°".data (replaceAll "\\mu".data "μ".data (replaceAll "\\times".data "×".data (replaceAll "\\:".data " ".data (replaceAll "\\;".data " ".data (replaceAll "\\,".data " ".data (replaceAll "$".data [] x))))))))))) :=
    not_infix_replaceAll "\\Omega".data "Ω".data _ _ (by decide) (by decide) (by decide) a_circ_8
  have a_circ_c : ¬ "\\circ".data <:+: collapseWs (replaceAll "\\Omega".data "Ω".data (replaceAll "\\Delta".data "Δ".data (replaceAll "\\theta".data "θ".data (replaceAll "\\pi".data "π".data (replaceAll "\\circ".data "°".data (replaceAll "\\mu".data "μ".data (replaceAll "\\times".data "×".data (replaceAll "\\:".data " ".data (replaceAll "\\;".data " ".data (replaceAll "\\,".data " ".data (replaceAll "$".data [] x))))))))))) :=
    not_infix_collapseWs _ _ (by decide) (by decide) a_circ_9
  have a_circ_y : ¬ "\\circ".data <:+: (jsTrim (collapseWs (replaceAll "\\Omega".data "Ω".data (replaceAll "\\Delta".data "Δ".data (replaceAll "\\theta".data "θ".data (replaceAll "\\pi".data "π".data (replaceAll "\\circ".data "°".data (replaceAll "\\mu".data "μ".data (replaceAll "\\times".data "×".data (replaceAll "\\:".data " ".data (replaceAll "\\;".data " ".data (replaceAll "\\,".data " ".data (replaceAll "$".data [] x))))))))))))) :=
    not_infix_jsTrim _ _ a_circ_c
  have a_pi_6 : ¬ "\\pi".data <:+: (replaceAll "\\pi".data "π".data (replaceAll "\\circ".data "°".data (replaceAll "\\mu".data "μ".data (replaceAll "\\times".data "×".data (replaceAll "\\:".data " ".data (replaceAll "\\;".data " ".data (replaceAll "\\,".data " ".data (replaceAll "$".data [] x)))))))) :=
    not_infix_replaceAll_self _ _ (by decide) (by decide) (by decide) _
  have a_pi_7 : ¬ "\\pi".data <:+: (replaceAll "\\theta".data "θ".data (replaceAll "\\pi".data "π".data (replaceAll "\\circ".data "°".data (replaceAll "\\mu".data "μ".data (replaceAll "\\times".data "×".data (replaceAll "\\:".data " ".data (replaceAll "\\;".data " ".data (replaceAll "\\,".data " ".data (replaceAll "$".data [] x))))))))) :=
    not_infix_replaceAll "\\theta".data "θ".data _ _ (by decide) (by decide) (by decide) a_pi_6
  have a_pi_8 : ¬ "\\pi".data <:+: (replaceAll "\\Delta".data "Δ".data (replaceAll "\\theta".data "θ".data (replaceAll "\\pi".data "π".data (replaceAll "\\circ".data "°".data (replaceAll "\\mu".data "μ".data (replaceAll "\\times".data "×".data (replaceAll "\\:".data " ".data (replaceAll "\\;".data " ".data (replaceAll "\\,".data " ".data (replaceAll "$".data [] x)))))))))) :=
    not_infix_replaceAll "\\Delta".data "Δ".data _ _ (by decide) (by decide) (by decide) a_pi_7
  have a_pi_9 : ¬ "\\pi".data <:+: (replaceAll "\\Omega".data "Ω".data (replaceAll "\\Delta".data "Δ".data (replaceAll "\\theta".data "θ".data (replaceAll "\\pi".data "π".data (replaceAll "\\circ".data "°".data (replaceAll "\\mu".data "μ".data (replaceAll "\\times".data "×".data (replaceAll "\\:".data " ".data (replaceAll "\\;".data " ".data (replaceAll "\\,".data " ".data (replaceAll "$".data [] x))))))))))) :=
    not_infix_replaceAll "\\Omega".data "Ω".data _ _ (by decide) (by decide) (by decide) a_pi_8
  have a_pi_c : ¬ "\\pi".data <:+: collapseWs (replaceAll "\\Omega".data "Ω".data (replaceAll "\\Delta".data "Δ".data (replaceAll "\\theta".data "θ".data (replaceAll "\\pi".data "π".data (replaceAll "\\circ".data "°".data (replaceAll "\\mu".data "μ".data (replaceAll "\\times".data "×".data (replaceAll "\\:".data " ".data (replaceAll "\\;".data " ".data (replaceAll "\\,".data " ".data (replaceAll "$".data [] x))))))))))) :=
    not_infix_collapseWs _ _ (by decide) (by decide) a_pi_9
  have a_pi_y : ¬ "\\pi".data <:+: (jsTrim (collapseWs (replaceAll "\\Omega".data "Ω".data (replaceAll "\\Delta".data "Δ".data (replaceAll "\\theta".data "θ".data (replaceAll "\\pi".data "π".data (replaceAll "\\circ".data "°".data (replaceAll "\\mu".data "μ".data (replaceAll "\\times".data "×".data (replaceAll "\\:".data " ".data (replaceAll "\\;".data " ".data (replaceAll "\\,".data " ".data (replaceAll "$".data [] x))))))))))))) :=
    not_infix_jsTrim _ _ a_pi_c
  have a_theta_7 : ¬ "\\theta".data <:+: (replaceAll "\\theta".data "θ".data (replaceAll "\\pi".data "π".data (replaceAll "\\circ".data "°".data (replaceAll "\\mu".data "μ".data (replaceAll "\\times".data "×".data (replaceAll "\\:".data " ".data (replaceAll "\\;".data " ".data (replaceAll "\\,".data " ".data (replaceAll "$".data [] x))))))))) :=
    not_infix_replaceAll_self _ _ (by decide) (by decide) (by decide) _
  have a_theta_8 : ¬ "\\theta".data <:+: (replaceAll "\\Delta".data "Δ".data (replaceAll "\\theta".data "θ".data (replaceAll "\\pi".data "π".data (replaceAll "\\circ".data "°".data (replaceAll "\\mu".data "μ".data (replaceAll "\\times".data "×".data (replaceAll "\\:".data " ".data (replaceAll "\\;".data " ".data (replaceAll "\\,".data " ".data (replaceAll "$".data [] x)))))))))) :=
    not_infix_replaceAll "\\Delta".data "Δ".data _ _ (by decide) (by decide) (by decide) a_theta_7
  have a_theta_9 : ¬ "\\theta".data <:+: (replaceAll "\\Omega".data "Ω".data (replaceAll "\\Delta".data "Δ".data (replaceAll "\\theta".data "θ".data (replaceAll "\\pi".data "π".data (replaceAll "\\circ".data "°".data (replaceAll "\\mu".data "μ".data (replaceAll "\\times".data "×".data (replaceAll "\\:".data " ".data (replaceAll "\\;".data " ".data (replaceAll "\\,".data " ".data (replaceAll "$".data [] x))))))))))) :=
    not_infix_replaceAll "\\Omega".data "Ω".data _ _ (by decide) (by decide) (by decide) a_theta_8
  have a_theta_c : ¬ "\\theta".data <:+: collapseWs (replaceAll "\\Omega".data "Ω".data (replaceAll "\\Delta".data "Δ".data (replaceAll "\\theta".data "θ".data (replaceAll "\\pi".data "π".data (replaceAll "\\circ".data "°".data (replaceAll "\\mu".data "μ".data (replaceAll "\\times".data "×".data (replaceAll "\\:".data " ".data (replaceAll "\\;".data " ".data (replaceAll "\\,".data " ".data (replaceAll "$".data [] x))))))))))) :=
    not_infix_collapseWs _ _ (by decide) (by decide) a_theta_9
  have a_theta_y : ¬ "\\theta".data <:+: (jsTrim (collapseWs (replaceAll "\\Omega".data "Ω".data (replaceAll "\\Delta".data "Δ".data (replaceAll "\\theta".data "θ".data (replaceAll "\\pi".data "π".data (replaceAll "\\circ".data "°".data (replaceAll "\\mu".data "μ".data (replaceAll "\\times".data "×".data (replaceAll "\\:".data " ".data (replaceAll "\\;".data " ".data (replaceAll "\\,".data " ".data (replaceAll "$".data [] x))))))))))))) :=
    not_infix_jsTrim _ _ a_theta_c
  have a_Delta_8 : ¬ "\\Delta".data <:+: (replaceAll "\\Delta".data "Δ".data (replaceAll "\\theta".data "θ".data (replaceAll "\\pi".data "π".data (replaceAll "\\circ".data "°".data (replaceAll "\\mu".data "μ".data (replaceAll "\\times".data "×".data (replaceAll "\\:".data " ".data (replaceAll "\\;".data " ".data (replaceAll "\\,".data " ".data (replaceAll "$".data [] x)))))))))) :=
    not_infix_replaceAll_self _ _ (by decide) (by decide) (by decide) _
  have a_Delta_9 : ¬ "\\Delta".data <:+: (replaceAll "\\Omega".data "Ω".data (replaceAll "\\Delta".data "Δ".data (replaceAll "\\theta".data "θ".data (replaceAll "\\pi".data "π".data (replaceAll "\\circ".data "°".data (replaceAll "\\mu".data "μ".data (replaceAll "\\times".data "×".data (replaceAll "\\:".data " ".data (replaceAll "\\;".data " ".data (replaceAll "\\,".data " ".data (replaceAll "$".data [] x))))))))))) :=
    not_infix_replaceAll "\\Omega".data "Ω".data _ _ (by decide) (by decide) (by decide) a_Delta_8
  have a_Delta_c : ¬ "\\Delta".data <:+: collapseWs (replaceAll "\\Omega".data "Ω".data (replaceAll "\\Delta".data "Δ".data (replaceAll "\\theta".data "θ".data (replaceAll "\\pi".data "π".data (replaceAll "\\circ".data "°".data (replaceAll "\\mu".data "μ".data (replaceAll "\\times".data "×".data (replaceAll "\\:".data " ".data (replaceAll "\\;".data " ".data (replaceAll "\\,".data " ".data (replaceAll "$".data [] x))))))))))) :=
    not_infix_collapseWs _ _ (by decide) (by decide) a_Delta_9
  have a_Delta_y : ¬ "\\Delta".data <:+: (jsTrim (collapseWs (replaceAll "\\Omega".data "Ω".data (replaceAll "\\Delta".data "Δ".data (replaceAll "\\theta".data "θ".data (replaceAll "\\pi".data "π".data (replaceAll "\\circ".data "°".data (replaceAll "\\mu".data "μ".data (replaceAll "\\times".data "×".data (replaceAll "\\:".data " ".data (replaceAll "\\;".data " ".data (replaceAll "\\,".data " ".data (replaceAll "$".data [] x))))))))))))) :=
    not_infix_jsTrim _ _ a_Delta_c
  have a_Omega_9 : ¬ "\\Omega".data <:+: (replaceAll "\\Omega".data "Ω".data (replaceAll "\\Delta".data "Δ".data (replaceAll "\\theta".data "θ".data (replaceAll "\\pi".data "π".data (replaceAll "\\circ".data "°".data (replaceAll "\\mu".data "μ".data (replaceAll "\\times".data "×".data (replaceAll "\\:".data " ".data (replaceAll "\\;".data " ".data (replaceAll "\\,".data " ".data (replaceAll "$".data [] x))))))))))) :=
    not_infix_replaceAll_self _ _ (by decide) (by decide) (by decide) _
  have a_Omega_c : ¬ "\\Omega".data <:+: collapseWs (replaceAll "\\Omega".data "Ω".data (replaceAll "\\Delta".data "Δ".data (replaceAll "\\theta".data "θ".data (replaceAll "\\pi".data "π".data (replaceAll "\\circ".data "°".data (replaceAll "\\mu".data "μ".data (replaceAll "\\times".data "×".data (replaceAll "\\:".data " ".data (replaceAll "\\;".data " ".data (replaceAll "\\,".data " ".data (replaceAll "$".data [] x))))))))))) :=
    not_infix_collapseWs _ _ (by decide) (by decide) a_Omega_9
  have a_Omega_y : ¬ "\\Omega".data <:+: (jsTrim (collapseWs (replaceAll "\\Omega".data "Ω".data (replaceAll "\\Delta".data "Δ".data (replaceAll "\\theta".data "θ".data (replaceAll "\\pi".data "π".data (replaceAll "\\circ".data "°".data (replaceAll "\\mu".data "μ".data (replaceAll "\\times".data "×".data (replaceAll "\\:".data " ".data (replaceAll "\\;".data " ".data (replaceAll "\\,".data " ".data (replaceAll "$".data [] x))))))))))))) :=
    not_infix_jsTrim _ _ a_Omega_c
  have m_dollar_0 : '$' ∉ (replaceAll "\\,".data " ".data (replaceAll "$".data [] x)) :=
    not_mem_replaceAll "\\,".data " ".data _ _ h0dollar (by decide)
  have m_dollar_1 : '$' ∉ (replaceAll "\\;".data " ".data (replaceAll "\\,".data " ".data (replaceAll "$".data [] x))) :=
    not_mem_replaceAll "\\;".data " ".data _ _ m_dollar_0 (by decide)
  have m_dollar_2 : '$' ∉ (replaceAll "\\:".data " ".data (replaceAll "\\;".data " ".data (replaceAll "\\,".data " ".data (replaceAll "$".data [] x)))) :=
    not_mem_replaceAll "\\:".data " ".data _ _ m_dollar_1 (by decide)
  have m_dollar_3 : '$' ∉ (replaceAll "\\times".data "×".data (replaceAll "\\:".data " ".data (replaceAll "\\;".data " ".data (replaceAll "\\,".data " ".data (replaceAll "$".data [] x))))) :=
    not_mem_replaceAll "\\times".data "×".data _ _ m_dollar_2 (by decide)
  have m_dollar_4 : '$' ∉ (replaceAll "\\mu".data "μ".data (replaceAll "\\times".data "×".data (replaceAll "\\:".data " ".data (replaceAll "\\;".data " ".data (replaceAll "\\,".data " ".data (replaceAll "$".data [] x)))))) :=
    not_mem_replaceAll "\\mu".data "μ".data _ _ m_dollar_3 (by decide)
  have m_dollar_5 : '$' ∉ (replaceAll "\\circ".data "°".data (replaceAll "\\mu".data "μ".data (replaceAll "\\times".data "×".data (replaceAll "\\:".data " ".data (replaceAll "\\;".data " ".data (replaceAll "\\,".data " ".data (replaceAll "$".data [] x))))))) :=
    not_mem_replaceAll "\\circ".data "°".data _ _ m_dollar_4 (by decide)
  have m_dollar_6 : '$' ∉ (replaceAll "\\pi".data "π".data (replaceAll "\\circ".data "°".data (replaceAll "\\mu".data "μ".data (replaceAll "\\times".data "×".data (replaceAll "\\:".data " ".data (replaceAll "\\;".data " ".data (replaceAll "\\,".data " ".data (replaceAll "$".data [] x)))))))) :=
    not_mem_replaceAll "\\pi".data "π".data _ _ m_dollar_5 (by decide)
  have m_dollar_7 : '$' ∉ (replaceAll "\\theta".data "θ".data (replaceAll "\\pi".data "π".data (replaceAll "\\circ".data "°".data (replaceAll "\\mu".data "μ".data (replaceAll "\\times".data "×".data (replaceAll "\\:".data " ".data (replaceAll "\\;".data " ".data (replaceAll "\\,".data " ".data (replaceAll "$".data [] x))))))))) :=
    not_mem_replaceAll "\\theta".data "θ".data _ _ m_dollar_6 (by decide)
  have m_dollar_8 : '$' ∉ (replaceAll "\\Delta".data "Δ".data (replaceAll "\\theta".data "θ".data (replaceAll "\\pi".data "π".data (replaceAll "\\circ".data "°".data (replaceAll "\\mu".data "μ".data (replaceAll "\\times".data "×".data (replaceAll "\\:".data " ".data (replaceAll "\\;".data " ".data (replaceAll "\\,".data " ".data (replaceAll "$".data [] x)))))))))) :=
    not_mem_replaceAll "\\Delta".data "Δ".data _ _ m_dollar_7 (by decide)
  have m_dollar_9 : '$' ∉ (replaceAll "\\Omega".data "Ω".data (replaceAll "\\Delta".data "Δ".data (replaceAll "\\theta".data "θ".data (replaceAll "\\pi".data "π".data (replaceAll "\\circ".data "°".data (replaceAll "\\mu".data "μ".data (replaceAll "\\times".data "×".data (replaceAll "\\:".data " ".data (replaceAll "\\;".data " ".data (replaceAll "\\,".data " ".data (replaceAll "$".data [] x))))))))))) :=
    not_mem_replaceAll "\\Omega".data "Ω".data _ _ m_dollar_8 (by decide)
  have m_dollar_c : '$' ∉ collapseWs (replaceAll "\\Omega".data "Ω".data (replaceAll "\\Delta".data "Δ".data (replaceAll "\\theta".data "θ".data (replaceAll "\\pi".data "π".data (replaceAll "\\circ".data "°".data (replaceAll "\\mu".data "μ".data (replaceAll "\\times".data "×".data (replaceAll "\\:".data " ".data (replaceAll "\\;".data " ".data (replaceAll "\\,".data " ".data (replaceAll "$".data [] x))))))))))) :=
    not_mem_collapseWs _ _ m_dollar_9 (by decide)
  have m_dollar_y : '$' ∉ (jsTrim (collapseWs (replaceAll "\\Omega".data "Ω".data (replaceAll "\\Delta".data "Δ".data (replaceAll "\\theta".data "θ".data (replaceAll "\\pi".data "π".data (replaceAll "\\circ".data "°".data (replaceAll "\\mu".data "μ".data (replaceAll "\\times".data "×".data (replaceAll "\\:".data " ".data (replaceAll "\\;".data " ".data (replaceAll "\\,".data " ".data (replaceAll "$".data [] x))))))))))))) :=
    not_mem_jsTrim _ _ m_dollar_c
  have m_brace_0 : '\x7b' ∉ (replaceAll "\\,".data " ".data (replaceAll "$".data [] x)) :=
    not_mem_replaceAll "\\,".data " ".data _ _ h0brace (by decide)
  have m_brace_1 : '\x7b' ∉ (replaceAll "\\;".data " ".data (replaceAll "\\,".data " ".data (replaceAll "$".data [] x))) :=
    not_mem_replaceAll "\\;".data " ".data _ _ m_brace_0 (by decide)
  have m_brace_2 : '\x7b' ∉ (replaceAll "\\:".data " ".data (replaceAll "\\;".data " ".data (replaceAll "\\,".data " ".data (replaceAll "$".data [] x)))) :=
    not_mem_replaceAll "\\:".data " ".data _ _ m_brace_1 (by decide)
  have m_brace_3 : '\x7b' ∉ (replaceAll "\\times".data "×".data (replaceAll "\\:".data " ".data (replaceAll "\\;".data " ".data (replaceAll "\\,".data " ".data (replaceAll "$".data [] x))))) :=
    not_mem_replaceAll "\\times".data "×".data _ _ m_brace_2 (by decide)
  have m_brace_4 : '\x7b' ∉ (replaceAll "\\mu".data "μ".data (replaceAll "\\times".data "×".data (replaceAll "\\:".data " ".data (replaceAll "\\;".data " ".data (replaceAll "\\,".data " ".data (replaceAll "$".data [] x)))))) :=
    not_mem_replaceAll "\\mu".data "μ".data _ _ m_brace_3 (by decide)
  have m_brace_5 : '\x7b' ∉ (replaceAll "\\circ".data "°".data (replaceAll "\\mu".data "μ".data (replaceAll "\\times".data "×".data (replaceAll "\\:".data " ".data (replaceAll "\\;".data " ".data (replaceAll "\\,".data " ".data (replaceAll "$".data [] x))))))) :=
    not_mem_replaceAll "\\circ".data "°".data _ _ m_brace_4 (by decide)
  have m_brace_6 : '\x7b' ∉ (replaceAll "\\pi".data "π".data (replaceAll "\\circ".data "°".data (replaceAll "\\mu".data "μ".data (replaceAll "\\times".data "×".data (replaceAll "\\:".data " ".data (replaceAll "\\;".data " ".data (replaceAll "\\,".data " ".data (replaceAll "$".data [] x)))))))) :=
    not_mem_replaceAll "\\pi".data "π".data _ _ m_brace_5 (by decide)
  have m_brace_7 : '\x7b' ∉ (replaceAll "\\theta".data "θ".data (replaceAll "\\pi".data "π".data (replaceAll "\\circ".data "°".data (replaceAll "\\mu".data "μ".data (replaceAll "\\times".data "×".data (replaceAll "\\:".data " ".data (replaceAll "\\;".data " ".data (replaceAll "\\,".data " ".data (replaceAll "$".data [] x))))))))) :=
    not_mem_replaceAll "\\theta".data "θ".data _ _ m_brace_6 (by decide)
  have m_brace_8 : '\x7b' ∉ (replaceAll "\\Delta".data "Δ".data (replaceAll "\\theta".data "θ".data (replaceAll "\\pi".data "π".data (replaceAll "\\circ".data "°".data (replaceAll "\\mu".data "μ".data (replaceAll "\\times".data "×".data (replaceAll "\\:".data " ".data (replaceAll "\\;".data " ".data (replaceAll "\\,".data " ".data (replaceAll "$".data [] x)))))))))) :=
    not_mem_replaceAll "\\Delta".data "Δ".data _ _ m_brace_7 (by decide)
  have m_brace_9 : '\x7b' ∉ (replaceAll "\\Omega".data "Ω".data (replaceAll "\\Delta".data "Δ".data (replaceAll "\\theta".data "θ".data (replaceAll "\\pi".data "π".data (replaceAll "\\circ".data "°".data (replaceAll "\\mu".data "μ".data (replaceAll "\\times".data "×".data (replaceAll "\\:".data " ".data (replaceAll "\\;".data " ".data (replaceAll "\\,".data " ".data (replaceAll "$".data [] x))))))))))) :=
    not_mem_replaceAll "\\Omega".data "Ω".data _ _ m_brace_8 (by decide)
  have m_brace_c : '\x7b' ∉ collapseWs (replaceAll "\\Omega".data "Ω".data (replaceAll "\\Delta".data "Δ".data (replaceAll "\\theta".data "θ".data (replaceAll "\\pi".data "π".data (replaceAll "\\circ".data "°".data (replaceAll "\\mu".data "μ".data (replaceAll "\\times".data "×".data (replaceAll "\\:".data " ".data (replaceAll "\\;".data " ".data (replaceAll "\\,".data " ".data (replaceAll "$".data [] x))))))))))) :=
    not_mem_collapseWs _ _ m_brace_9 (by decide)
  have m_brace_y : '\x7b' ∉ (jsTrim (collapseWs (replaceAll "\\Omega".data "Ω".data (replaceAll "\\Delta".data "Δ".data (replaceAll "\\theta".data "θ".data (replaceAll "\\pi".data "π".data (replaceAll "\\circ".data "°".data (replaceAll "\\mu".data "μ".data (replaceAll "\\times".data "×".data (replaceAll "\\:".data " ".data (replaceAll "\\;".data " ".data (replaceAll "\\,".data " ".data (replaceAll "$".data [] x))))))))))))) :=
    not_mem_jsTrim _ _ m_brace_c
  have q0 : replaceAll "$".data [] (jsTrim (collapseWs (replaceAll "\\Omega".data "Ω".data (replaceAll "\\Delta".data "Δ".data (replaceAll "\\theta".data "θ".data (replaceAll "\\pi".data "π".data (replaceAll "\\circ".data "°".data (replaceAll "\\mu".data "μ".data (replaceAll "\\times".data "×".data (replaceAll "\\:".data " ".data (replaceAll "\\;".data " ".data (replaceAll "\\,".data " ".data (replaceAll "$".data [] x))))))))))))) = (jsTrim (collapseWs (replaceAll "\\Omega".data "Ω".data (replaceAll "\\Delta".data "Δ".data (replaceAll "\\theta".data "θ".data (replaceAll "\\pi".data "π".data (replaceAll "\\circ".data "°".data (replaceAll "\\mu".data "μ".data (replaceAll "\\times".data "×".data (replaceAll "\\:".data " ".data (replaceAll "\\;".data " ".data (replaceAll "\\,".data " ".data (replaceAll "$".data [] x))))))))))))) :=
    replaceAll_id _ _ _ (fun hin => m_dollar_y (singleton_infix_iff.mp hin))
  have qb1 : braceCollapse "\\text".data [] (jsTrim (collapseWs (replaceAll "\\Omega".data "Ω".data (replaceAll "\\Delta".data "Δ".data (replaceAll "\\theta".data "θ".data (replaceAll "\\pi".data "π".data (replaceAll "\\circ".data "°".data (replaceAll "\\mu".data "μ".data (replaceAll "\\times".data "×".data (replaceAll "\\:".data " ".data (replaceAll "\\;".data " ".data (replaceAll "\\,".data " ".data (replaceAll "$".data [] x))))))))))))) = (jsTrim (collapseWs (replaceAll "\\Omega".data "Ω".data (replaceAll "\\Delta".data "Δ".data (replaceAll "\\theta".data "θ".data (replaceAll "\\pi".data "π".data (replaceAll "\\circ".data "°".data (replaceAll "\\mu".data "μ".data (replaceAll "\\times".data "×".data (replaceAll "\\:".data " ".data (replaceAll "\\;".data " ".data (replaceAll "\\,".data " ".data (replaceAll "$".data [] x))))))))))))) :=
    braceCollapse_eq_of_not_mem _ _ _ m_brace_y
  have qb2 : braceCollapse "\\mathrm".data [] (jsTrim (collapseWs (replaceAll "\\Omega".data "Ω".data (replaceAll "\\Delta".data "Δ".data (replaceAll "\\theta".data "θ".data (replaceAll "\\pi".data "π".data (replaceAll "\\circ".data "°".data (replaceAll "\\mu".data "μ".data (replaceAll "\\times".data "×".data (replaceAll "\\:".data " ".data (replaceAll "\\;".data " ".data (replaceAll "\\,".data " ".data (replaceAll "$".data [] x))))))))))))) = (jsTrim (collapseWs (replaceAll "\\Omega".data "Ω".data (replaceAll "\\Delta".data "Δ".data (replaceAll "\\theta".data "θ".data (replaceAll "\\pi".data "π".data (replaceAll "\\circ".data "°".data (replaceAll "\\mu".data "μ".data (replaceAll "\\times".data "×".data (replaceAll "\\:".data " ".data (replaceAll "\\;".data " ".data (replaceAll "\\,".data " ".data (replaceAll "$".data [] x))))))))))))) :=
    braceCollapse_eq_of_not_mem _ _ _ m_brace_y
  have qb3 : braceCollapse "^".data "^".data (jsTrim (collapseWs (replaceAll "\\Omega".data "Ω".data (replaceAll "\\Delta".data "Δ".data (replaceAll "\\theta".data "θ".data (replaceAll "\\pi".data "π".data (replaceAll "\\circ".data "°".data (replaceAll "\\mu".data "μ".data (replaceAll "\\times".data "×".data (replaceAll "\\:".data " ".data (replaceAll "\\;".data " ".data (replaceAll "\\,".data " ".data (replaceAll "$".data [] x))))))))))))) = (jsTrim (collapseWs (replaceAll "\\Omega".data "Ω".data (replaceAll "\\Delta".data "Δ".data (replaceAll "\\theta".data "θ".data (replaceAll "\\pi".data "π".data (replaceAll "\\circ".data "°".data (replaceAll "\\mu".data "μ".data (replaceAll "\\times".data "×".data (replaceAll "\\:".data " ".data (replaceAll "\\;".data " ".data (replaceAll "\\,".data " ".data (replaceAll "$".data [] x))))))))))))) :=
    braceCollapse_eq_of_not_mem _ _ _ m_brace_y
  have qb4 : braceCollapse "_".data "_".data (jsTrim (collapseWs (replaceAll "\\Omega".data "Ω".data (replaceAll "\\Delta".data "Δ".data (replaceAll "\\theta".data "θ".data (replaceAll "\\pi".data "π".data (replaceAll "\\circ".data "°".data (replaceAll "\\mu".data "μ".data (replaceAll "\\times".data "×".data (replaceAll "\\:".data " ".data (replaceAll "\\;".data " ".data (replaceAll "\\,".data " ".data (replaceAll "$".data [] x))))))))))))) = (jsTrim (collapseWs (replaceAll "\\Omega".data "Ω".data (replaceAll "\\Delta".data "Δ".data (replaceAll "\\theta".data "θ".data (replaceAll "\\pi".data "π".data (replaceAll "\\circ".data "°".data (replaceAll "\\mu".data "μ".data (replaceAll "\\times".data "×".data (replaceAll "\\:".data " ".data (replaceAll "\\;".data " ".data (replaceAll "\\,".data " ".data (replaceAll "$".data [] x))))))))))))) :=
    braceCollapse_eq_of_not_mem _ _ _ m_brace_y
  have qr_comma : replaceAll "\\,".data " ".data (jsTrim (collapseWs (replaceAll "\\Omega".data "Ω".data (replaceAll "\\Delta".data "Δ".data (replaceAll "\\theta".data "θ".data (replaceAll "\\pi".data "π".data (replaceAll "\\circ".data "°".data (replaceAll "\\mu".data "μ".data (replaceAll "\\times".data "×".data (replaceAll "\\:".data " ".data (replaceAll "\\;".data " ".data (replaceAll "\\,".data " ".data (replaceAll "$".data [] x))))))))))))) = (jsTrim (collapseWs (replaceAll "\\Omega".data "Ω".data (replaceAll "\\Delta".data "Δ".data (replaceAll "\\theta".data "θ".data (replaceAll "\\pi".data "π".data (replaceAll "\\circ".data "°".data (replaceAll "\\mu".data "μ".data (replaceAll "\\times".data "×".data (replaceAll "\\:".data " ".data (replaceAll "\\;".data " ".data (replaceAll "\\,".data " ".data (replaceAll "$".data [] x))))))))))))) :=
    replaceAll_id _ _ _ a_comma_y
  have qr_semi : replaceAll "\\;".data " ".data (jsTrim (collapseWs (replaceAll "\\Omega".data "Ω".data (replaceAll "\\Delta".data "Δ".data (replaceAll "\\theta".data "θ".data (replaceAll "\\pi".data "π".data (replaceAll "\\circ".data "°".data (replaceAll "\\mu".data "μ".data (replaceAll "\\times".data "×".data (replaceAll "\\:".data " ".data (replaceAll "\\;".data " ".data (replaceAll "\\,".data " ".data (replaceAll "$".data [] x))))))))))))) = (jsTrim (collapseWs (replaceAll "\\Omega".data "Ω".data (replaceAll "\\Delta".data "Δ".data (replaceAll "\\theta".data "θ".data (replaceAll "\\pi".data "π".data (replaceAll "\\circ".data "°".data (replaceAll "\\mu".data "μ".data (replaceAll "\\times".data "×".data (replaceAll "\\:".data " ".data (replaceAll "\\;".data " ".data (replaceAll "\\,".data " ".data (replaceAll "$".data [] x))))))))))))) :=
    replaceAll_id _ _ _ a_semi_y
  have qr_colon : replaceAll "\\:".data " ".data (jsTrim (collapseWs (replaceAll "\\Omega".data "Ω".data (replaceAll "\\Delta".data "Δ".data (replaceAll "\\theta".data "θ".data (replaceAll "\\pi".data "π".data (replaceAll "\\circ".data "°".data (replaceAll "\\mu".data "μ".data (replaceAll "\\times".data "×".data (replaceAll "\\:".data " ".data (replaceAll "\\;".data " ".data (replaceAll "\\,".data " ".data (replaceAll "$".data [] x))))))))))))) = (jsTrim (collapseWs (replaceAll "\\Omega".data "Ω".data (replaceAll "\\Delta".data "Δ".data (replaceAll "\\theta".data "θ".data (replaceAll "\\pi".data "π".data (replaceAll "\\circ".data "°".data (replaceAll "\\mu".data "μ".data (replaceAll "\\times".data "×".data (replaceAll "\\:".data " ".data (replaceAll "\\;".data " ".data (replaceAll "\\,".data " ".data (replaceAll "$".data [] x))))))))))))) :=
    replaceAll_id _ _ _ a_colon_y
  have qr_times : replaceAll "\\times".data "×".data (jsTrim (collapseWs (replaceAll "\\Omega".data "Ω".data (replaceAll "\\Delta".data "Δ".data (replaceAll "\\theta".data "θ".data (replaceAll "\\pi".data "π".data (replaceAll "\\circ".data "°".data (replaceAll "\\mu".data "μ".data (replaceAll "\\times".data "×".data (replaceAll "\\:".data " ".data (replaceAll "\\;".data " ".data (replaceAll "\\,".data " ".data (replaceAll "$".data [] x))))))))))))) = (jsTrim (collapseWs (replaceAll "\\Omega".data "Ω".data (replaceAll "\\Delta".data "Δ".data (replaceAll "\\theta".data "θ".data (replaceAll "\\pi".data "π".data (replaceAll "\\circ".data "°".data (replaceAll "\\mu".data "μ".data (replaceAll "\\times".data "×".data (replaceAll "\\:".data " ".data (replaceAll "\\;".data " ".data (replaceAll "\\,".data " ".data (replaceAll "$".data [] x))))))))))))) :=
    replaceAll_id _ _ _ a_times_y
  have qr_mu : replaceAll "\\mu".data "μ".data (jsTrim (collapseWs (replaceAll "\\Omega".data "Ω".data (replaceAll "\\Delta".data "Δ".data (replaceAll "\\theta".data "θ".data (replaceAll "\\pi".data "π".data (replaceAll "\\circ".data "°".data (replaceAll "\\mu".data "μ".data (replaceAll "\\times".data "×".data (replaceAll "\\:".data " ".data (replaceAll "\\;".data " ".data (replaceAll "\\,".data " ".data (replaceAll "$".data [] x))))))))))))) = (jsTrim (collapseWs (replaceAll "\\Omega".data "Ω".data (replaceAll "\\Delta".data "Δ".data (replaceAll "\\theta".data "θ".data (replaceAll "\\pi".data "π".data (replaceAll "\\circ".data "°".data (replaceAll "\\mu".data "μ".data (replaceAll "\\times".data "×".data (replaceAll "\\:".data " ".data (replaceAll "\\;".data " ".data (replaceAll "\\,".data " ".data (replaceAll "$".data [] x))))))))))))) :=
    replaceAll_id _ _ _ a_mu_y
  have qr_circ : replaceAll "\\circ".data "°".data (jsTrim (collapseWs (replaceAll "\\Omega".data "Ω".data (replaceAll "\\Delta".data "Δ".data (replaceAll "\\theta".data "θ".data (replaceAll "\\pi".data "π".data (replaceAll "\\circ".data "°".data (replaceAll "\\mu".data "μ".data (replaceAll "\\times".data "×".data (replaceAll "\\:".data " ".data (replaceAll "\\;".data " ".data (replaceAll "\\,".data " ".data (replaceAll "$".data [] x))))))))))))) = (jsTrim (collapseWs (replaceAll "\\Omega".data "Ω".data (replaceAll "\\Delta".data "Δ".data (replaceAll "\\theta".data "θ".data (replaceAll "\\pi".data "π".data (replaceAll "\\circ".data "°".data (replaceAll "\\mu".data "μ".data (replaceAll "\\times".data "×".data (replaceAll "\\:".data " ".data (replaceAll "\\;".data " ".data (replaceAll "\\,".data " ".data (replaceAll "$".data [] x))))))))))))) :=
    replaceAll_id _ _ _ a_circ_y
  have qr_pi : replaceAll "\\pi".data "π".data (jsTrim (collapseWs (replaceAll "\\Omega".data "Ω".data (replaceAll "\\Delta".data "Δ".data (replaceAll "\\theta".data "θ".data (replaceAll "\\pi".data "π".data (replaceAll "\\circ".data "°".data (replaceAll "\\mu".data "μ".data (replaceAll "\\times".data "×".data (replaceAll "\\:".data " ".data (replaceAll "\\;".data " ".data (replaceAll "\\,".data " ".data (replaceAll "$".data [] x))))))))))))) = (jsTrim (collapseWs (replaceAll "\\Omega".data "Ω".data (replaceAll "\\Delta".data "Δ".data (replaceAll "\\theta".data "θ".data (replaceAll "\\pi".data "π".data (replaceAll "\\circ".data "°".data (replaceAll "\\mu".data "μ".data (replaceAll "\\times".data "×".data (replaceAll "\\:".data " ".data (replaceAll "\\;".data " ".data (replaceAll "\\,".data " ".data (replaceAll "$".data [] x))))))))))))) :=
    replaceAll_id _ _ _ a_pi_y
  have qr_theta : replaceAll "\\theta".data "θ".data (jsTrim (collapseWs (replaceAll "\\Omega".data "Ω".data (replaceAll "\\Delta".data "Δ".data (replaceAll "\\theta".data "θ".data (replaceAll "\\pi".data "π".data (replaceAll "\\circ".data "°".data (replaceAll "\\mu".data "μ".data (replaceAll "\\times".data "×".data (replaceAll "\\:".data " ".data (replaceAll "\\;".data " ".data (replaceAll "\\,".data " ".data (replaceAll "$".data [] x))))))))))))) = (jsTrim (collapseWs (replaceAll "\\Omega".data "Ω".data (replaceAll "\\Delta".data "Δ".data (replaceAll "\\theta".data "θ".data (replaceAll "\\pi".data "π".data (replaceAll "\\circ".data "°".data (replaceAll "\\mu".data "μ".data (replaceAll "\\times".data "×".data (replaceAll "\\:".data " ".data (replaceAll "\\;".data " ".data (replaceAll "\\,".data " ".data (replaceAll "$".data [] x))))))))))))) :=
    replaceAll_id _ _ _ a_theta_y
  have qr_Delta : replaceAll "\\Delta".data "Δ".data (jsTrim (collapseWs (replaceAll "\\Omega".data "Ω".data (replaceAll "\\Delta".data "Δ".data (replaceAll "\\theta".data "θ".data (replaceAll "\\pi".data "π".data (replaceAll "\\circ".data "°".data (replaceAll "\\mu".data "μ".data (replaceAll "\\times".data "×".data (replaceAll "\\:".data " ".data (replaceAll "\\;".data " ".data (replaceAll "\\,".data " ".data (replaceAll "$".data [] x))))))))))))) = (jsTrim (collapseWs (replaceAll "\\Omega".data "Ω".data (replaceAll "\\Delta".data "Δ".data (replaceAll "\\theta".data "θ".data (replaceAll "\\pi".data "π".data (replaceAll "\\circ".data "°".data (replaceAll "\\mu".data "μ".data (replaceAll "\\times".data "×".data (replaceAll "\\:".data " ".data (replaceAll "\\;".data " ".data (replaceAll "\\,".data " ".data (replaceAll "$".data [] x))))))))))))) :=
    replaceAll_id _ _ _ a_Delta_y
  have qr_Omega : replaceAll "\\Omega".data "Ω".data (jsTrim (collapseWs (replaceAll "\\Omega".data "Ω".data (replaceAll "\\Delta".data "Δ".data (replaceAll "\\theta".data "θ".data (replaceAll "\\pi".data "π".data (replaceAll "\\circ".data "°".data (replaceAll "\\mu".data "μ".data (replaceAll "\\times".data "×".data (replaceAll "\\:".data " ".data (replaceAll "\\;".data " ".data (replaceAll "\\,".data " ".data (replaceAll "$".data [] x))))))))))))) = (jsTrim (collapseWs (replaceAll "\\Omega".data "Ω".data (replaceAll "\\Delta".data "Δ".data (replaceAll "\\theta".data "θ".data (replaceAll "\\pi".data "π".data (replaceAll "\\circ".data "°".data (replaceAll "\\mu".data "μ".data (replaceAll "\\times".data "×".data (replaceAll "\\:".data " ".data (replaceAll "\\;".data " ".data (replaceAll "\\,".data " ".data (replaceAll "$".data [] x))))))))))))) :=
    replaceAll_id _ _ _ a_Omega_y
  simp only [simplifyChars]
  rw [e1, e2, e3, e4]
  simp only [tagSingle_eq]
  rw [q0, qb1, qb2, qb3, qb4, qr_comma, qr_semi, qr_colon, qr_times, qr_mu,
    qr_circ, qr_pi, qr_theta, qr_Delta, qr_Omega]
  exact jsTrim_collapseWs_idem (replaceAll "\\Omega".data "Ω".data (replaceAll "\\Delta".data "Δ".data (replaceAll "\\theta".data "θ".data (replaceAll "\\pi".data "π".data (replaceAll "\\circ".data "°".data (replaceAll "\\mu".data "μ".data (replaceAll "\\times".data "×".data (replaceAll "\\:".data " ".data (replaceAll "\\;".data " ".data (replaceAll "\\,".data " ".data (replaceAll "$".data [] x)))))))))))
/-- `latexToSimple` on a packed character list. -/
theorem latexToSimple_mk (l : List Char) :
    latexToSimple (String.mk l) = String.mk (simplifyChars l) := by
  unfold latexToSimple
  by_cases h : String.mk l = ""
  · rw [if_pos h]
    have hl : l = [] := congrArg String.data h
    rw [hl]
    rfl
  · rw [if_neg h]

/-- C2, counterexample: `latexToSimple` is not idempotent.  On the nested
input `\text{\text{a}}` one pass unwraps only the outer command (the regex
content class `[^}]*` stops at the first closing brace), leaving `\text{a}`,
which a second pass unwraps further to `a`. -/
theorem latexToSimple_not_idem_cex :
    latexToSimple "\\text\x7b\\text\x7ba\x7d\x7d" = "\\text\x7ba\x7d" ∧
    latexToSimple (latexToSimple "\\text\x7b\\text\x7ba\x7d\x7d") = "a" ∧
    latexToSimple (latexToSimple "\\text\x7b\\text\x7ba\x7d\x7d")
      ≠ latexToSimple "\\text\x7b\\text\x7ba\x7d\x7d" :=
  ⟨rfl, rfl, by decide⟩

/-- C2, amended: the markup simplifier is idempotent on every string that
contains no opening brace `{` — on such strings the second pass finds nothing
left to transform.  (With nested braced commands a single pass only unwraps
one level, so full idempotence fails.) -/
theorem latexToSimple_idem (s : String) (h : '\x7b' ∉ s.data) :
    latexToSimple (latexToSimple s) = latexToSimple s := by
  by_cases hs : s = ""
  · subst hs
    rfl
  · have h1 : latexToSimple s = String.mk (simplifyChars s.data) := by
      unfold latexToSimple
      rw [if_neg hs]
    rw [h1, latexToSimple_mk, simplifyChars_idem s.data h]

/-- C2, witness for the amended theorem at a brace-free concrete input. -/
theorem latexToSimple_idem_witness :
    latexToSimple (latexToSimple "$v = 3\\,m/s$  \\times \\mu")
      = latexToSimple "$v = 3\\,m/s$  \\times \\mu" :=
  latexToSimple_idem "$v = 3\\,m/s$  \\times \\mu" (by decide)

/-! ## Lemmas about the `fixTok` repair rules -/

theorem prefix_fixTokF (tok rep : List Char) :
    ∀ (f : Nat) (s q : List Char), (∀ ch ∈ q, jsWs ch = false) →
      q <+: fixTokF tok rep f s → q <+: s := by
  intro f
  induction f with
  | zero => intro s q _ h; cases s <;> simpa [fixTokF] using h
  | succ f ih =>
    intro s q hq h
    cases s with
    | nil => simpa [fixTokF] using h
    | cons c cs =>
      simp only [fixTokF] at h
      split at h
      · rename_i hcond
        cases q with
        | nil => exact List.nil_prefix
        | cons x q' =>
          rw [List.cons_prefix_cons] at h
          exfalso
          have := hq x (List.mem_cons_self _ _)
          rw [h.1] at this
          rw [this] at hcond
          simp at hcond
      · cases q with
        | nil => exact List.nil_prefix
        | cons x q' =>
          rw [List.cons_prefix_cons] at h
          obtain ⟨rfl, h'⟩ := h
          exact List.cons_prefix_cons.mpr
            ⟨rfl, ih cs q' (fun ch hch => hq ch (List.mem_cons_of_mem _ hch)) h'⟩

theorem prefix_fixTok (tok rep q s : List Char) (hrh : rep.head? = some '\\')
    (hqbs : '\\' ∉ q) (hqws : ∀ ch ∈ q, jsWs ch = false)
    (h : q <+: fixTok tok rep s) : q <+: s := by
  unfold fixTok at h
  split at h
  · cases q with
    | nil => exact List.nil_prefix
    | cons x q' =>
      exfalso
      cases rep with
      | nil => simp at hrh
      | cons r0 rt =>
        rw [List.cons_append, List.cons_prefix_cons] at h
        apply hqbs
        rw [h.1]
        simp only [List.head?_cons, Option.some.injEq] at hrh
        rw [hrh]
        exact List.mem_cons_self _ _
  · exact prefix_fixTokF tok rep s.length s q hqws h

theorem suffix_getLast_brace {a rep : List Char} (ha : a ≠ []) (hsuf : a <:+ rep)
    (hlast : rep.getLast? = some '\x7b') : '\x7b' ∈ a := by
  obtain ⟨t, rfl⟩ := hsuf
  rw [List.getLast?_append_of_ne_nil t ha] at hlast
  obtain ⟨h, heq⟩ := List.mem_getLast?_eq_getLast hlast
  rw [heq]
  exact List.getLast_mem h

theorem infix_fixTokF_token (tok rep : List Char) (hlast : rep.getLast? = some '\x7b') :
    ∀ (f : Nat) (s q : List Char), q ≠ [] → (∀ ch ∈ q, jsWs ch = false) →
      '\x7b' ∉ q → ¬ q <:+: rep →
      q <:+: fixTokF tok rep f s → q <:+: s := by
  intro f
  induction f with
  | zero => intro s q _ _ _ _ h; cases s <;> simpa [fixTokF] using h
  | succ f ih =>
    intro s q hqne hqws hqbr hqrep h
    cases s with
    | nil => simpa [fixTokF] using h
    | cons c cs =>
      simp only [fixTokF] at h
      split at h
      · rename_i hcond
        rcases List.infix_cons_iff.mp h with h' | h'
        · exfalso
          cases q with
          | nil => exact hqne rfl
          | cons x q' =>
            rw [List.cons_prefix_cons] at h'
            have := hqws x (List.mem_cons_self _ _)
            rw [h'.1] at this
            rw [this] at hcond
            simp at hcond
        · rcases infix_append_cases h' with h'' | h'' | ⟨a, b, hab, ha, _, hsuf, _⟩
          · exact absurd h'' hqrep
          · exact List.infix_cons_iff.mpr (Or.inr (infix_of_drop (ih _ _ hqne hqws hqbr hqrep h'')))
          · exfalso
            apply hqbr
            rw [hab]
            exact List.mem_append.mpr (Or.inl (suffix_getLast_brace ha hsuf hlast))
      · rcases List.infix_cons_iff.mp h with h' | h'
        · cases q with
          | nil => exact absurd rfl hqne
          | cons x q' =>
            rw [List.cons_prefix_cons] at h'
            obtain ⟨rfl, h''⟩ := h'
            exact (List.cons_prefix_cons.mpr
              ⟨rfl, prefix_fixTokF tok rep f cs q'
                (fun ch hch => hqws ch (List.mem_cons_of_mem _ hch)) h''⟩).isInfix
        · exact List.infix_cons_iff.mpr (Or.inr (ih _ _ hqne hqws hqbr hqrep h'))

theorem infix_fixTok_token (tok rep q s : List Char) (hlast : rep.getLast? = some '\x7b')
    (hqne : q ≠ []) (hqws : ∀ ch ∈ q, jsWs ch = false) (hqbr : '\x7b' ∉ q)
    (hqrep : ¬ q <:+: rep) (h : q <:+: fixTok tok rep s) : q <:+: s := by
  unfold fixTok at h
  split at h
  · rcases infix_append_cases h with h' | h' | ⟨a, b, hab, ha, _, hsuf, _⟩
    · exact absurd h' hqrep
    · exact infix_of_drop (infix_fixTokF_token tok rep hlast _ _ _ hqne hqws hqbr hqrep h')
    · exfalso
      apply hqbr
      rw [hab]
      exact List.mem_append.mpr (Or.inl (suffix_getLast_brace ha hsuf hlast))
  · exact infix_fixTokF_token tok rep hlast _ _ _ hqne hqws hqbr hqrep h

theorem infix_fixTokF_wstoken (tok rep : List Char) (hrws : ∀ ch ∈ rep, jsWs ch = false)
    (hrh : rep.head? = some '\\') :
    ∀ (f : Nat) (s : List Char) (c : Char) (q₀ : List Char), jsWs c = true → q₀ ≠ [] →
      (∀ ch ∈ q₀, jsWs ch = false) → '\\' ∉ q₀ →
      (c :: q₀) <:+: fixTokF tok rep f s → (c :: q₀) <:+: s := by
  intro f
  induction f with
  | zero => intro s c q₀ _ _ _ _ h; cases s <;> simpa [fixTokF] using h
  | succ f ih =>
    intro s c q₀ hc hq0ne hq0ws hq0bs h
    cases s with
    | nil => simpa [fixTokF] using h
    | cons d ds =>
      simp only [fixTokF] at h
      split at h
      · rcases List.infix_cons_iff.mp h with h' | h'
        · exfalso
          rw [List.cons_prefix_cons] at h'
          cases q₀ with
          | nil => exact hq0ne rfl
          | cons x q' =>
            cases rep with
            | nil => simp at hrh
            | cons r0 rt =>
              rw [List.cons_append, List.cons_prefix_cons] at h'
              apply hq0bs
              rw [h'.2.1]
              simp only [List.head?_cons, Option.some.injEq] at hrh
              rw [hrh]
              exact List.mem_cons_self _ _
        · rcases infix_append_cases h' with h'' | h'' | ⟨a, b, hab, ha, _, hsuf, _⟩
          · exfalso
            have hcmem : c ∈ rep := h''.subset (List.mem_cons_self _ _)
            rw [hrws c hcmem] at hc
            exact Bool.false_ne_true hc
          · exact List.infix_cons_iff.mpr
              (Or.inr (infix_of_drop (ih _ _ _ hc hq0ne hq0ws hq0bs h'')))
          · exfalso
            cases a with
            | nil => exact ha rfl
            | cons a0 as =>
              have ha0 : a0 = c := by
                have := congrArg (fun l => l.head?) hab
                simpa using this.symm
              have ha0mem : a0 ∈ rep := hsuf.subset (List.mem_cons_self _ _)
              rw [ha0, hrws c (ha0 ▸ ha0mem)] at *
              exact Bool.false_ne_true hc
      · rcases List.infix_cons_iff.mp h with h' | h'
        · rw [List.cons_prefix_cons] at h'
          obtain ⟨rfl, h''⟩ := h'
          exact (List.cons_prefix_cons.mpr
            ⟨rfl, prefix_fixTokF tok rep f ds q₀ hq0ws h''⟩).isInfix
        · exact List.infix_cons_iff.mpr (Or.inr (ih _ _ _ hc hq0ne hq0ws hq0bs h'))

theorem infix_fixTok_wstoken (tok rep : List Char) (s : List Char) (c : Char)
    (q₀ : List Char) (hrws : ∀ ch ∈ rep, jsWs ch = false) (hrh : rep.head? = some '\\')
    (hc : jsWs c = true) (hq0ne : q₀ ≠ []) (hq0ws : ∀ ch ∈ q₀, jsWs ch = false)
    (hq0bs : '\\' ∉ q₀) (h : (c :: q₀) <:+: fixTok tok rep s) : (c :: q₀) <:+: s := by
  unfold fixTok at h
  split at h
  · rcases infix_append_cases h with h' | h' | ⟨a, b, hab, ha, _, hsuf, _⟩
    · exfalso
      have hcmem : c ∈ rep := h'.subset (List.mem_cons_self _ _)
      rw [hrws c hcmem] at hc
      exact Bool.false_ne_true hc
    · exact infix_of_drop
        (infix_fixTokF_wstoken tok rep hrws hrh _ _ _ _ hc hq0ne hq0ws hq0bs h')
    · exfalso
      cases a with
      | nil => exact ha rfl
      | cons a0 as =>
        have ha0 : a0 = c := by
          have := congrArg (fun l => l.head?) hab
          simpa using this.symm
        have ha0mem : a0 ∈ rep := hsuf.subset (List.mem_cons_self _ _)
        rw [ha0, hrws c (ha0 ▸ ha0mem)] at *
        exact Bool.false_ne_true hc
  · exact infix_fixTokF_wstoken tok rep hrws hrh _ _ _ _ hc hq0ne hq0ws hq0bs h

theorem not_tok_prefix_fixTok (tok rep s : List Char) (htokne : tok ≠ [])
    (htokbs : '\\' ∉ tok) (htokws : ∀ ch ∈ tok, jsWs ch = false)
    (hrh : rep.head? = some '\\') : ¬ tok <+: fixTok tok rep s := by
  intro h
  unfold fixTok at h
  revert h
  split
  · intro h
    cases tok with
    | nil => exact htokne rfl
    | cons t0 ts =>
      cases rep with
      | nil => simp at hrh
      | cons r0 rt =>
        rw [List.cons_append, List.cons_prefix_cons] at h
        apply htokbs
        rw [h.1]
        simp only [List.head?_cons, Option.some.injEq] at hrh
        rw [hrh]
        exact List.mem_cons_self _ _
  · intro h
    rename_i hnc
    exact hnc (List.isPrefixOf_iff_prefix.mpr (prefix_fixTokF tok rep s.length s tok htokws h))

theorem not_wstok_infix_fixTokF (tok rep : List Char) (htokne : tok ≠ [])
    (htokbs : '\\' ∉ tok) (htokws : ∀ ch ∈ tok, jsWs ch = false)
    (hrws : ∀ ch ∈ rep, jsWs ch = false) (hrh : rep.head? = some '\\') :
    ∀ (f : Nat) (s : List Char), s.length ≤ f → ∀ c, jsWs c = true →
      ¬ (c :: tok) <:+: fixTokF tok rep f s := by
  intro f
  induction f with
  | zero =>
    intro s hs c _ h
    rw [List.length_eq_zero.mp (Nat.le_zero.mp hs)] at h
    simp [fixTokF] at h
  | succ f ih =>
    intro s hs c hc h
    cases s with
    | nil => simp [fixTokF] at h
    | cons d ds =>
      simp only [fixTokF] at h
      revert h
      split
      · intro h
        rcases List.infix_cons_iff.mp h with h' | h'
        · rw [List.cons_prefix_cons] at h'
          cases tok with
          | nil => exact htokne rfl
          | cons t0 ts =>
            cases rep with
            | nil => simp at hrh
            | cons r0 rt =>
              rw [List.cons_append, List.cons_prefix_cons] at h'
              apply htokbs
              rw [h'.2.1]
              simp only [List.head?_cons, Option.some.injEq] at hrh
              rw [hrh]
              exact List.mem_cons_self _ _
        · rcases infix_append_cases h' with h'' | h'' | ⟨a, b, hab, ha, _, hsuf, _⟩
          · have hcmem : c ∈ rep := h''.subset (List.mem_cons_self _ _)
            rw [hrws c hcmem] at hc
            exact Bool.false_ne_true hc
          · refine ih _ ?_ c hc h''
            have := List.length_drop tok.length ds
            simp only [List.length_cons] at hs
            omega
          · cases a with
            | nil => exact ha rfl
            | cons a0 as =>
              have ha0 : a0 = c := by
                have := congrArg (fun l => l.head?) hab
                simpa using this.symm
              have ha0mem : a0 ∈ rep := hsuf.subset (List.mem_cons_self _ _)
              rw [ha0] at ha0mem
              rw [hrws c ha0mem] at hc
              exact Bool.false_ne_true hc
      · intro h
        rename_i hnc
        rcases List.infix_cons_iff.mp h with h' | h'
        · rw [List.cons_prefix_cons] at h'
          obtain ⟨rfl, h''⟩ := h'
          exact hnc ⟨hc, List.isPrefixOf_iff_prefix.mpr
            (prefix_fixTokF tok rep f ds tok htokws h'')⟩
        · exact ih ds (by simp only [List.length_cons] at hs; omega) c hc h'

theorem not_wstok_infix_fixTok (tok rep s : List Char) (htokne : tok ≠ [])
    (htokbs : '\\' ∉ tok) (htokws : ∀ ch ∈ tok, jsWs ch = false)
    (hrws : ∀ ch ∈ rep, jsWs ch = false) (hrh : rep.head? = some '\\')
    (c : Char) (hc : jsWs c = true) : ¬ (c :: tok) <:+: fixTok tok rep s := by
  intro h
  unfold fixTok at h
  revert h
  split
  · intro h
    rcases infix_append_cases h with h' | h' | ⟨a, b, hab, ha, _, hsuf, _⟩
    · have hcmem : c ∈ rep := h'.subset (List.mem_cons_self _ _)
      rw [hrws c hcmem] at hc
      exact Bool.false_ne_true hc
    · exact not_wstok_infix_fixTokF tok rep htokne htokbs htokws hrws hrh
        s.length (s.drop tok.length)
        ((List.length_drop tok.length s).le.trans (Nat.sub_le _ _)) c hc h'
    · cases a with
      | nil => exact ha rfl
      | cons a0 as =>
        have ha0 : a0 = c := by
          have := congrArg (fun l => l.head?) hab
          simpa using this.symm
        have ha0mem : a0 ∈ rep := hsuf.subset (List.mem_cons_self _ _)
        rw [ha0] at ha0mem
        rw [hrws c ha0mem] at hc
        exact Bool.false_ne_true hc
  · intro h
    exact not_wstok_infix_fixTokF tok rep htokne htokbs htokws hrws hrh
      s.length s le_rfl c hc h

theorem fixTokF_id (tok rep : List Char) :
    ∀ (f : Nat) (s : List Char), (∀ c, jsWs c = true → ¬ (c :: tok) <:+: s) →
      fixTokF tok rep f s = s := by
  intro f
  induction f with
  | zero => intro s _; cases s <;> rfl
  | succ f ih =>
    intro s hs
    cases s with
    | nil => rfl
    | cons d ds =>
      simp only [fixTokF]
      rw [if_neg, ih ds (fun c hc hin => hs c hc (List.infix_cons_iff.mpr (Or.inr hin)))]
      intro hcond
      exact hs d hcond.1 (List.infix_cons_iff.mpr (Or.inl
        (List.cons_prefix_cons.mpr ⟨rfl, List.isPrefixOf_iff_prefix.mp hcond.2⟩)))

theorem fixTok_id (tok rep s : List Char) (h1 : ¬ tok <+: s)
    (h2 : ∀ c, jsWs c = true → ¬ (c :: tok) <:+: s) : fixTok tok rep s = s := by
  unfold fixTok
  rw [if_neg (fun hc => h1 (List.isPrefixOf_iff_prefix.mp hc))]
  exact fixTokF_id tok rep s.length s h2

theorem fixWordF_id (w : List Char) :
    ∀ (f : Nat) (s : List Char), ¬ w <:+: s → fixWordF w f s = s := by
  intro f
  induction f with
  | zero => intro s _; cases s <;> rfl
  | succ f ih =>
    intro s hs
    cases s with
    | nil => rfl
    | cons d ds =>
      simp only [fixWordF]
      rw [if_neg, ih ds (fun hin => hs (List.infix_cons_iff.mpr (Or.inr hin)))]
      intro hcond
      exact hs (List.infix_cons_iff.mpr (Or.inr
        (List.isPrefixOf_iff_prefix.mp hcond.2.1).isInfix))

theorem fixWord_id (w s : List Char) (h : ¬ w <:+: s) : fixWord w s = s := by
  unfold fixWord
  rw [if_neg (fun hc => h (List.isPrefixOf_iff_prefix.mp hc.1).isInfix)]
  exact fixWordF_id w s.length s h

/-- The markup repairer is idempotent on inputs that contain none of the
word tokens `times`, `mu`, `pi`, `theta`: on such inputs only the
escape-insertion rules fire, and they leave nothing for a second pass.
(With adjacent word tokens sharing one separator, idempotence fails; see
the counterexample.) -/
theorem repairChars_idem (x : List Char)
    (htimes : ¬ "times".data <:+: x) (hmu : ¬ "mu".data <:+: x)
    (hpi : ¬ "pi".data <:+: x) (htheta : ¬ "theta".data <:+: x) :
    repairChars (repairChars x) = repairChars x := by
  have a_times_1 : ¬ "times".data <:+: (fixTok "ext\x7b".data "\\text\x7b".data (x)) :=
    fun hin => htimes (infix_fixTok_token "ext\x7b".data "\\text\x7b".data "times".data (x)
      (by decide) (by decide) (by decide) (by decide) (by decide) hin)
  have a_times_2 : ¬ "times".data <:+: (fixTok "frac\x7b".data "\\frac\x7b".data (fixTok "ext\x7b".data "\\text\x7b".data (x))) :=
    fun hin => a_times_1 (infix_fixTok_token "frac\x7b".data "\\frac\x7b".data "times".data (fixTok "ext\x7b".data "\\text\x7b".data (x))
      (by decide) (by decide) (by decide) (by decide) (by decide) hin)
  have a_times_3 : ¬ "times".data <:+: (fixTok "sqrt\x7b".data "\\sqrt\x7b".data (fixTok "frac\x7b".data "\\frac\x7b".data (fixTok "ext\x7b".data "\\text\x7b".data (x)))) :=
    fun hin => a_times_2 (infix_fixTok_token "sqrt\x7b".data "\\sqrt\x7b".data "times".data (fixTok "frac\x7b".data "\\frac\x7b".data (fixTok "ext\x7b".data "\\text\x7b".data (x)))
      (by decide) (by decide) (by decide) (by decide) (by decide) hin)
  have a_mu_1 : ¬ "mu".data <:+: (fixTok "ext\x7b".data "\\text\x7b".data (x)) :=
    fun hin => hmu (infix_fixTok_token "ext\x7b".data "\\text\x7b".data "mu".data (x)
      (by decide) (by decide) (by decide) (by decide) (by decide) hin)
  have a_mu_2 : ¬ "mu".data <:+: (fixTok "frac\x7b".data "\\frac\x7b".data (fixTok "ext\x7b".data "\\text\x7b".data (x))) :=
    fun hin => a_mu_1 (infix_fixTok_token "frac\x7b".data "\\frac\x7b".data "mu".data (fixTok "ext\x7b".data "\\text\x7b".data (x))
      (by decide) (by decide) (by decide) (by decide) (by decide) hin)
  have a_mu_3 : ¬ "mu".data <:+: (fixTok "sqrt\x7b".data "\\sqrt\x7b".data (fixTok "frac\x7b".data "\\frac\x7b".data (fixTok "ext\x7b".data "\\text\x7b".data (x)))) :=
    fun hin => a_mu_2 (infix_fixTok_token "sqrt\x7b".data "\\sqrt\x7b".data "mu".data (fixTok "frac\x7b".data "\\frac\x7b".data (fixTok "ext\x7b".data "\\text\x7b".data (x)))
      (by decide) (by decide) (by decide) (by decide) (by decide) hin)
  have a_pi_1 : ¬ "pi".data <:+: (fixTok "ext\x7b".data "\\text\x7b".data (x)) :=
    fun hin => hpi (infix_fixTok_token "ext\x7b".data "\\text\x7b".data "pi".data (x)
      (by decide) (by decide) (by decide) (by decide) (by decide) hin)
  have a_pi_2 : ¬ "pi".data <:+: (fixTok "frac\x7b".data "\\frac\x7b".data (fixTok "ext\x7b".data "\\text\x7b".data (x))) :=
    fun hin => a_pi_1 (infix_fixTok_token "frac\x7b".data "\\frac\x7b".data "pi".data (fixTok "ext\x7b".data "\\text\x7b".data (x))
      (by decide) (by decide) (by decide) (by decide) (by decide) hin)
  have a_pi_3 : ¬ "pi".data <:+: (fixTok "sqrt\x7b".data "\\sqrt\x7b".data (fixTok "frac\x7b".data "\\frac\x7b".data (fixTok "ext\x7b".data "\\text\x7b".data (x)))) :=
    fun hin => a_pi_2 (infix_fixTok_token "sqrt\x7b".data "\\sqrt\x7b".data "pi".data (fixTok "frac\x7b".data "\\frac\x7b".data (fixTok "ext\x7b".data "\\text\x7b".data (x)))
      (by decide) (by decide) (by decide) (by decide) (by decide) hin)
  have a_theta_1 : ¬ "theta".data <:+: (fixTok "ext\x7b".data "\\text\x7b".data (x)) :=
    fun hin => htheta (infix_fixTok_token "ext\x7b".data "\\text\x7b".data "theta".data (x)
      (by decide) (by decide) (by decide) (by decide) (by decide) hin)
  have a_theta_2 : ¬ "theta".data <:+: (fixTok "frac\x7b".data "\\frac\x7b".data (fixTok "ext\x7b".data "\\text\x7b".data (x))) :=
    fun hin => a_theta_1 (infix_fixTok_token "frac\x7b".data "\\frac\x7b".data "theta".data (fixTok "ext\x7b".data "\\text\x7b".data (x))
      (by decide) (by decide) (by decide) (by decide) (by decide) hin)
  have a_theta_3 : ¬ "theta".data <:+: (fixTok "sqrt\x7b".data "\\sqrt\x7b".data (fixTok "frac\x7b".data "\\frac\x7b".data (fixTok "ext\x7b".data "\\text\x7b".data (x)))) :=
    fun hin => a_theta_2 (infix_fixTok_token "sqrt\x7b".data "\\sqrt\x7b".data "theta".data (fixTok "frac\x7b".data "\\frac\x7b".data (fixTok "ext\x7b".data "\\text\x7b".data (x)))
      (by decide) (by decide) (by decide) (by decide) (by decide) hin)
  have n1_ext_1 : ¬ "ext\x7b".data <+: (fixTok "ext\x7b".data "\\text\x7b".data (x)) :=
    not_tok_prefix_fixTok "ext\x7b".data "\\text\x7b".data (x) (by decide) (by decide) (by decide) (by decide)
  have n2_ext_1 : ∀ c, jsWs c = true → ¬ (c :: "ext\x7b".data) <:+: (fixTok "ext\x7b".data "\\text\x7b".data (x)) :=
    fun c hc => not_wstok_infix_fixTok "ext\x7b".data "\\text\x7b".data (x)
      (by decide) (by decide) (by decide) (by decide) (by decide) c hc
  have n1_ext_2 : ¬ "ext\x7b".data <+: (fixTok "frac\x7b".data "\\frac\x7b".data (fixTok "ext\x7b".data "\\text\x7b".data (x))) :=
    fun hp => n1_ext_1 (prefix_fixTok "frac\x7b".data "\\frac\x7b".data "ext\x7b".data (fixTok "ext\x7b".data "\\text\x7b".data (x))
      (by decide) (by decide) (by decide) hp)
  have n2_ext_2 : ∀ c, jsWs c = true → ¬ (c :: "ext\x7b".data) <:+: (fixTok "frac\x7b".data "\\frac\x7b".data (fixTok "ext\x7b".data "\\text\x7b".data (x))) :=
    fun c hc hin => n2_ext_1 c hc (infix_fixTok_wstoken "frac\x7b".data "\\frac\x7b".data (fixTok "ext\x7b".data "\\text\x7b".data (x)) c "ext\x7b".data
      (by decide) (by decide) hc (by decide) (by decide) (by decide) hin)
  have n1_ext_3 : ¬ "ext\x7b".data <+: (fixTok "sqrt\x7b".data "\\sqrt\x7b".data (fixTok "frac\x7b".data "\\frac\x7b".data (fixTok "ext\x7b".data "\\text\x7b".data (x)))) :=
    fun hp => n1_ext_2 (prefix_fixTok "sqrt\x7b".data "\\sqrt\x7b".data "ext\x7b".data (fixTok "frac\x7b".data "\\frac\x7b".data (fixTok "ext\x7b".data "\\text\x7b".data (x)))
      (by decide) (by decide) (by decide) hp)
  have n2_ext_3 : ∀ c, jsWs c = true → ¬ (c :: "ext\x7b".data) <:+: (fixTok "sqrt\x7b".data "\\sqrt\x7b".data (fixTok "frac\x7b".data "\\frac\x7b".data (fixTok "ext\x7b".data "\\text\x7b".data (x)))) :=
    fun c hc hin => n2_ext_2 c hc (infix_fixTok_wstoken "sqrt\x7b".data "\\sqrt\x7b".data (fixTok "frac\x7b".data "\\frac\x7b".data (fixTok "ext\x7b".data "\\text\x7b".data (x))) c "ext\x7b".data
      (by decide) (by decide) hc (by decide) (by decide) (by decide) hin)
  have n1_frac_2 : ¬ "frac\x7b".data <+: (fixTok "frac\x7b".data "\\frac\x7b".data (fixTok "ext\x7b".data "\\text\x7b".data (x))) :=
    not_tok_prefix_fixTok "frac\x7b".data "\\frac\x7b".data (fixTok "ext\x7b".data "\\text\x7b".data (x)) (by decide) (by decide) (by decide) (by decide)
  have n2_frac_2 : ∀ c, jsWs c = true → ¬ (c :: "frac\x7b".data) <:+: (fixTok "frac\x7b".data "\\frac\x7b".data (fixTok "ext\x7b".data "\\text\x7b".data (x))) :=
    fun c hc => not_wstok_infix_fixTok "frac\x7b".data "\\frac\x7b".data (fixTok "ext\x7b".data "\\text\x7b".data (x))
      (by decide) (by decide) (by decide) (by decide) (by decide) c hc
  have n1_frac_3 : ¬ "frac\x7b".data <+: (fixTok "sqrt\x7b".data "\\sqrt\x7b".data (fixTok "frac\x7b".data "\\frac\x7b".data (fixTok "ext\x7b".data "\\text\x7b".data (x)))) :=
    fun hp => n1_frac_2 (prefix_fixTok "sqrt\x7b".data "\\sqrt\x7b".data "frac\x7b".data (fixTok "frac\x7b".data "\\frac\x7b".data (fixTok "ext\x7b".data "\\text\x7b".data (x)))
      (by decide) (by decide) (by decide) hp)
  have n2_frac_3 : ∀ c, jsWs c = true → ¬ (c :: "frac\x7b".data) <:+: (fixTok "sqrt\x7b".data "\\sqrt\x7b".data (fixTok "frac\x7b".data "\\frac\x7b".data (fixTok "ext\x7b".data "\\text\x7b".data (x)))) :=
    fun c hc hin => n2_frac_2 c hc (infix_fixTok_wstoken "sqrt\x7b".data "\\sqrt\x7b".data (fixTok "frac\x7b".data "\\frac\x7b".data (fixTok "ext\x7b".data "\\text\x7b".data (x))) c "frac\x7b".data
      (by decide) (by decide) hc (by decide) (by decide) (by decide) hin)
  have n1_sqrt_3 : ¬ "sqrt\x7b".data <+: (fixTok "sqrt\x7b".data "\\sqrt\x7b".data (fixTok "frac\x7b".data "\\frac\x7b".data (fixTok "ext\x7b".data "\\text\x7b".data (x)))) :=
    not_tok_prefix_fixTok "sqrt\x7b".data "\\sqrt\x7b".data (fixTok "frac\x7b".data "\\frac\x7b".data (fixTok "ext\x7b".data "\\text\x7b".data (x))) (by decide) (by decide) (by decide) (by decide)
  have n2_sqrt_3 : ∀ c, jsWs c = true → ¬ (c :: "sqrt\x7b".data) <:+: (fixTok "sqrt\x7b".data "\\sqrt\x7b".data (fixTok "frac\x7b".data "\\frac\x7b".data (fixTok "ext\x7b".data "\\text\x7b".data (x)))) :=
    fun c hc => not_wstok_infix_fixTok "sqrt\x7b".data "\\sqrt\x7b".data (fixTok "frac\x7b".data "\\frac\x7b".data (fixTok "ext\x7b".data "\\text\x7b".data (x)))
      (by decide) (by decide) (by decide) (by decide) (by decide) c hc
  have ew_times : fixWord "times".data (fixTok "sqrt\x7b".data "\\sqrt\x7b".data (fixTok "frac\x7b".data "\\frac\x7b".data (fixTok "ext\x7b".data "\\text\x7b".data (x)))) = (fixTok "sqrt\x7b".data "\\sqrt\x7b".data (fixTok "frac\x7b".data "\\frac\x7b".data (fixTok "ext\x7b".data "\\text\x7b".data (x)))) := fixWord_id _ _ a_times_3
  have ew_mu : fixWord "mu".data (fixTok "sqrt\x7b".data "\\sqrt\x7b".data (fixTok "frac\x7b".data "\\frac\x7b".data (fixTok "ext\x7b".data "\\text\x7b".data (x)))) = (fixTok "sqrt\x7b".data "\\sqrt\x7b".data (fixTok "frac\x7b".data "\\frac\x7b".data (fixTok "ext\x7b".data "\\text\x7b".data (x)))) := fixWord_id _ _ a_mu_3
  have ew_pi : fixWord "pi".data (fixTok "sqrt\x7b".data "\\sqrt\x7b".data (fixTok "frac\x7b".data "\\frac\x7b".data (fixTok "ext\x7b".data "\\text\x7b".data (x)))) = (fixTok "sqrt\x7b".data "\\sqrt\x7b".data (fixTok "frac\x7b".data "\\frac\x7b".data (fixTok "ext\x7b".data "\\text\x7b".data (x)))) := fixWord_id _ _ a_pi_3
  have ew_theta : fixWord "theta".data (fixTok "sqrt\x7b".data "\\sqrt\x7b".data (fixTok "frac\x7b".data "\\frac\x7b".data (fixTok "ext\x7b".data "\\text\x7b".data (x)))) = (fixTok "sqrt\x7b".data "\\sqrt\x7b".data (fixTok "frac\x7b".data "\\frac\x7b".data (fixTok "ext\x7b".data "\\text\x7b".data (x)))) := fixWord_id _ _ a_theta_3
  have p_ext : fixTok "ext\x7b".data "\\text\x7b".data (fixTok "sqrt\x7b".data "\\sqrt\x7b".data (fixTok "frac\x7b".data "\\frac\x7b".data (fixTok "ext\x7b".data "\\text\x7b".data (x)))) = (fixTok "sqrt\x7b".data "\\sqrt\x7b".data (fixTok "frac\x7b".data "\\frac\x7b".data (fixTok "ext\x7b".data "\\text\x7b".data (x)))) :=
    fixTok_id _ _ _ n1_ext_3 n2_ext_3
  have p_frac : fixTok "frac\x7b".data "\\frac\x7b".data (fixTok "sqrt\x7b".data "\\sqrt\x7b".data (fixTok "frac\x7b".data "\\frac\x7b".data (fixTok "ext\x7b".data "\\text\x7b".data (x)))) = (fixTok "sqrt\x7b".data "\\sqrt\x7b".data (fixTok "frac\x7b".data "\\frac\x7b".data (fixTok "ext\x7b".data "\\text\x7b".data (x)))) :=
    fixTok_id _ _ _ n1_frac_3 n2_frac_3
  have p_sqrt : fixTok "sqrt\x7b".data "\\sqrt\x7b".data (fixTok "sqrt\x7b".data "\\sqrt\x7b".data (fixTok "frac\x7b".data "\\frac\x7b".data (fixTok "ext\x7b".data "\\text\x7b".data (x)))) = (fixTok "sqrt\x7b".data "\\sqrt\x7b".data (fixTok "frac\x7b".data "\\frac\x7b".data (fixTok "ext\x7b".data "\\text\x7b".data (x)))) :=
    fixTok_id _ _ _ n1_sqrt_3 n2_sqrt_3
  simp only [repairChars]
  rw [ew_times, ew_mu, ew_pi, ew_theta]
  simp only [dollarRewrap_eq]
  rw [p_ext, p_frac, p_sqrt, ew_times, ew_mu, ew_pi, ew_theta]
/-- `repairMalformedLatex` on a packed character list. -/
theorem repairMalformedLatex_mk (l : List Char) :
    repairMalformedLatex (String.mk l) = String.mk (repairChars l) := by
  unfold repairMalformedLatex
  by_cases h : String.mk l = ""
  · rw [if_pos h]
    have hl : l = [] := congrArg String.data h
    rw [hl]
    rfl
  · rw [if_neg h]

/-- C3, counterexample: the repairer does not leave its own output unchanged
in general.  On `times times` the first pass rewrites only the first word
token — the regex `(\s|^)times(\s|$)` consumes the separating space, so the
second occurrence has no leading separator left — and the second pass then
rewrites the second token, so repair(repair(x)) differs from repair(x). -/
theorem repairMalformedLatex_not_idem_cex :
    repairMalformedLatex "times times" = "\\times times" ∧
    repairMalformedLatex (repairMalformedLatex "times times") = "\\times \\times" ∧
    repairMalformedLatex (repairMalformedLatex "times times")
      ≠ repairMalformedLatex "times times" :=
  ⟨rfl, rfl, by decide⟩

/-- C3, amended: the markup repairer is idempotent (and in particular leaves
already-correct markup unchanged) on every string containing none of the bare
word tokens `times`, `mu`, `pi`, `theta`; the escape-insertion rules for
`ext{` / `frac{` / `sqrt{` never create new matches.  (When two bare word
tokens share a single separating whitespace character, the shared separator
is consumed by the first match and idempotence fails.) -/
theorem repairMalformedLatex_idem (s : String)
    (htimes : ¬ "times".data <:+: s.data) (hmu : ¬ "mu".data <:+: s.data)
    (hpi : ¬ "pi".data <:+: s.data) (htheta : ¬ "theta".data <:+: s.data) :
    repairMalformedLatex (repairMalformedLatex s) = repairMalformedLatex s := by
  by_cases hs : s = ""
  · subst hs
    rfl
  · have h1 : repairMalformedLatex s = String.mk (repairChars s.data) := by
      unfold repairMalformedLatex
      rw [if_neg hs]
    rw [h1, repairMalformedLatex_mk,
      repairChars_idem s.data htimes hmu hpi htheta]

/-- C3, witness for the amended theorem: already-correct markup (with proper
backslashes) is left unchanged by a second repair pass. -/
theorem repairMalformedLatex_idem_witness :
    repairMalformedLatex (repairMalformedLatex "20 ext\x7b N\x7d and \\frac\x7ba\x7d\x7bb\x7d")
      = repairMalformedLatex "20 ext\x7b N\x7d and \\frac\x7ba\x7d\x7bb\x7d" :=
  repairMalformedLatex_idem "20 ext\x7b N\x7d and \\frac\x7ba\x7d\x7bb\x7d"
    (by decide) (by decide) (by decide) (by decide)
